import Mathlib

/-!
Shallow embedding of `publish-extensions.js` (EclipseFdn/publish-extensions):
the per-package classification, resolution-dispatch, bounded-execution and
run-accounting pipeline, together with theorems about its behaviour.

Modelling conventions:
* Version strings are represented by their semantic-version parse (`SemVer`);
  the `build` component is kept so that semver-equal but textually different
  versions remain distinguishable, and JavaScript string equality `===` on
  version strings is modelled as structural equality of `SemVer`.
* JavaScript objects used as string-keyed dictionaries are modelled as
  finitely-supported maps `String → Option α`; assigning `undefined` to a
  property is modelled as storing `none`, which is observationally equivalent
  to deletion for every read the program performs on these maps (truthiness
  tests and JSON serialization, which drops `undefined`-valued keys).
* `Promise.allSettled` query results are `Option (Option α)`: the outer layer
  is the settled status (rejected = `none`), the inner layer is whether the
  fulfilled value is defined.
* The floating-point division in `daysInBetween` is modelled as exact `Rat`
  division; no claim depends on its rounding.
-/

/-- A semver prerelease identifier: numeric or alphanumeric. -/
inductive PreId where
  | num (n : Nat)
  | str (s : String)
deriving DecidableEq

/-- A parsed semantic version. `build` metadata is ignored by comparison
(per the semver specification, as implemented by the `semver` npm library)
but retained so that textual distinctness of version strings is visible. -/
structure SemVer where
  major : Nat
  minor : Nat
  patch : Nat
  prerelease : List PreId := []
  build : String := ""
deriving DecidableEq

/-- Comparison of prerelease identifiers: numeric identifiers compare
numerically and sort below alphanumeric ones; alphanumeric compare lexically. -/
def cmpPreId : PreId → PreId → Ordering
  | .num a, .num b => compare a b
  | .num _, .str _ => .lt
  | .str _, .num _ => .gt
  | .str a, .str b => compare a b

/-- Comparison of prerelease identifier lists: elementwise, a shorter list
that is a prefix of a longer one sorts below it. -/
def cmpPreList : List PreId → List PreId → Ordering
  | [], [] => .eq
  | [], _ :: _ => .lt
  | _ :: _, [] => .gt
  | a :: as, b :: bs =>
    match cmpPreId a b with
    | .eq => cmpPreList as bs
    | o => o

/-- Semver precedence comparison (`semver.compare`): major, minor, patch,
then prerelease (a version with a prerelease sorts below the same version
without one); build metadata is ignored. -/
def semverCompare (a b : SemVer) : Ordering :=
  match compare a.major b.major with
  | .eq =>
    match compare a.minor b.minor with
    | .eq =>
      match compare a.patch b.patch with
      | .eq =>
        match a.prerelease, b.prerelease with
        | [], [] => .eq
        | [], _ :: _ => .gt
        | _ :: _, [] => .lt
        | x :: xs, y :: ys => cmpPreList (x :: xs) (y :: ys)
      | o => o
    | o => o
  | o => o

/-- The classification buckets of the run report, named after the fields of
the `stat` object in `publish-extensions.js`. -/
inductive Classification where
  | notInMS     -- absent from the source (MS) marketplace
  | notInOpen   -- absent from the mirror (Open VSX) registry
  | upToDate
  | outdated
  | unstable
deriving DecidableEq

/-- The classifier branch of `updateStat` (`publish-extensions.js` lines
147–157): `if (!context.msVersion) … else if (!context.ovsxVersion) … else if
(semver.eq…) … else if (semver.gt…) … else if (semver.lt…)`. The three
semver branches are rendered as a match on `semverCompare`, which is exactly
the trichotomy the `semver` library provides for valid versions. -/
def classify (msVersion ovsxVersion : Option SemVer) : Classification :=
  match msVersion with
  | none => .notInMS
  | some ms =>
    match ovsxVersion with
    | none => .notInOpen
    | some ovsx =>
      match semverCompare ms ovsx with
      | .eq => .upToDate
      | .gt => .outdated
      | .lt => .unstable

/-! ## Marketplace gallery data -/

/-- A key/value property attached to a gallery version. -/
structure GalleryProp where
  key : String
  value : String
deriving DecidableEq

/-- One version entry of a gallery extension; `lastUpdated` is an epoch-ms
timestamp. The `versions` lists are ordered newest first, as returned by the
gallery APIs. -/
structure GalleryVersion where
  version : SemVer
  lastUpdated : Int
  properties : Option (List GalleryProp)
deriving DecidableEq

/-- One `statistics` entry of an MS-gallery extension. -/
structure MSStatistic where
  statisticName : String
  value : Int
deriving DecidableEq

/-- The fields of a published MS-marketplace extension that
`publish-extensions.js` reads. -/
structure MSExt where
  versions : List GalleryVersion
  statistics : Option (List MSStatistic)
  publisherName : String
deriving DecidableEq

/-- The fields of an Open VSX extension that `publish-extensions.js` reads. -/
structure OvsxExt where
  versions : List GalleryVersion
deriving DecidableEq

/-- `isPreReleaseVersion` (lines 43–46): the version is a prerelease when its
properties contain a `Microsoft.VisualStudio.Code.PreRelease` entry whose
first occurrence has value `'true'`. -/
def isPreReleaseVersion (props : Option (List GalleryProp)) : Bool :=
  let values : List GalleryProp := (match props with
    | some l => l.filter (fun p => p.key == "Microsoft.VisualStudio.Code.PreRelease")
    | none => [])
  match values with
  | [] => false
  | v :: _ => v.value == "true"

/-- The mutable `context` object built per package (lines 107–133, 176,
197–221). All fields start `undefined`. -/
structure PublishContext where
  msVersion : Option SemVer := none
  msLastUpdated : Option Int := none
  msInstalls : Option Int := none
  msPublisher : Option String := none
  ovsxVersion : Option SemVer := none
  ovsxLastUpdated : Option Int := none
  version : Option SemVer := none
  file : Option String := none
  repo : Option String := none
  ref : Option String := none
deriving DecidableEq

/-- The `versions` list reached through the optional chain
`msExtension.value?.versions`: an undefined value yields no versions. -/
def versionsOfMS : Option MSExt → List GalleryVersion
  | none => []
  | some e => e.versions

/-- Likewise for `ovsxExtension.value?.versions`. -/
def versionsOfOvsx : Option OvsxExt → List GalleryVersion
  | none => []
  | some e => e.versions

/-- Context fields extracted from the settled MS-marketplace query (lines
115–122). The outer `Option` is the settled status (`none` = rejected, in
which case nothing is assigned); the inner `Option` is the fulfilled value.
`lastNonPrereleaseVersion` is the first (newest) version whose properties do
not mark it as a prerelease. -/
def msContextOf (msResult : Option (Option MSExt)) : PublishContext :=
  match msResult with
  | none => {}
  | some v =>
    let lastNonPrereleaseVersion :=
      (versionsOfMS v).find? (fun ver => !isPreReleaseVersion ver.properties)
    { msVersion := lastNonPrereleaseVersion.map (fun x => x.version)
      msLastUpdated := lastNonPrereleaseVersion.map (fun x => x.lastUpdated)
      msInstalls := (v.bind (fun e => e.statistics)).bind
        (fun l => (l.find? (fun s => s.statisticName == "install")).map (fun s => s.value))
      msPublisher := v.map (fun e => e.publisherName) }

/-! ## JavaScript `Date` arithmetic (for `monthAgo`, lines 97–98) -/

/-- Proleptic-Gregorian leap-year test (year 0 is a leap year). -/
def leapYear (y : Int) : Bool :=
  (y % 4 == 0 && y % 100 != 0) || y % 400 == 0

/-- Days in the years `[0, y)` of the proleptic Gregorian calendar. -/
def daysBeforeYear (y : Int) : Int :=
  365 * y + Int.fdiv (y + 3) 4 - Int.fdiv (y + 99) 100 + Int.fdiv (y + 399) 400

/-- Cumulative day counts at the start of each (0-based) month of a
non-leap year. -/
def daysBeforeMonthTable : List Int :=
  [0, 31, 59, 90, 120, 151, 181, 212, 243, 273, 304, 334]

/-- Days in the months `[0, m)` of year `y` (m is 0-based). -/
def daysBeforeMonth (y : Int) (m : Nat) : Int :=
  daysBeforeMonthTable.getD m 0 + (if 2 ≤ m ∧ leapYear y then 1 else 0)

/-- ECMAScript `MakeDay`: the day number of (year, month, day) where `month`
may lie outside `[0, 11]` (it is folded into the year) and `day` may overflow
the month (the excess simply advances into later months/years, e.g.
February 31 normalizes to March 2 or 3). -/
def makeDayNumber (year month day : Int) : Int :=
  let monthsTotal := 12 * year + month
  let y := Int.fdiv monthsTotal 12
  let m := (Int.fmod monthsTotal 12).toNat
  daysBeforeYear y + daysBeforeMonth y m + day - 1

/-- The day number of the Unix epoch, 1970-01-01. -/
def epochDayNumber : Int := makeDayNumber 1970 0 1

/-- A JavaScript `Date` broken into calendar fields; `month` is 0-based and
`msInDay` is the time of day in milliseconds. -/
structure JSDate where
  year : Int
  month : Int
  day : Int
  msInDay : Int
deriving DecidableEq

/-- `Date.prototype.getTime`: epoch milliseconds, normalizing out-of-range
month/day fields exactly as `MakeDay` does. -/
def JSDate.getTime (d : JSDate) : Int :=
  (makeDayNumber d.year d.month d.day - epochDayNumber) * 86400000 + d.msInDay

/-- `monthAgo.setMonth(monthAgo.getMonth() - 1)` (line 98): decrement the
0-based month field; normalization happens inside `getTime`. -/
def JSDate.setMonthSub1 (d : JSDate) : JSDate :=
  { d with month := d.month - 1 }

/-! ## The run-accounting `stat` object -/

/-- The per-extension record stored in the classification maps
(`extStat`, line 135). -/
structure ExtStat where
  msInstalls : Option Int
  msVersion : Option SemVer
  openVersion : Option SemVer
  daysInBetween : Option Rat
deriving DecidableEq

/-- The record stored in `stat.msPublished` (line 124). -/
structure MsPubEntry where
  msInstalls : Option Int
  msVersion : Option SemVer
deriving DecidableEq

/-- The record stored in `stat.resolutions` (lines 171–175): the context's
install count and MS version together with the spread fields of
`resolved?.resolution`. -/
structure ResolutionEntry where
  msInstalls : Option Int
  msVersion : Option SemVer
  releaseAsset : Option String
  releaseTag : Option String
  tag : Option String
  latest : Option String
  matchedLatest : Option String
  matched : Option String
deriving DecidableEq

/-- Point update of a string-keyed dictionary; storing `none` models both
`delete m[k]` and `m[k] = undefined`. -/
def upd {α : Type} (m : String → Option α) (id : String) (v : Option α) :
    String → Option α :=
  fun k => if k = id then v else m k

/-- The `stat` aggregate (lines 84–95). `notInMS` and `failed` are arrays in
the source and stay lists here. -/
structure Stat where
  upToDate : String → Option ExtStat
  outdated : String → Option ExtStat
  unstable : String → Option ExtStat
  notInOpen : String → Option ExtStat
  notInMS : List String
  failed : List String
  msPublished : String → Option MsPubEntry
  hitMiss : String → Option ExtStat
  resolutions : String → Option ResolutionEntry

/-- The empty `stat` created at batch start. -/
def statEmpty : Stat :=
  { upToDate := fun _ => none
    outdated := fun _ => none
    unstable := fun _ => none
    notInOpen := fun _ => none
    notInMS := []
    failed := []
    msPublished := fun _ => none
    hitMiss := fun _ => none
    resolutions := fun _ => none }

/-- How many of the five classification buckets hold `id` (occurrences in the
`notInMS` array counted with multiplicity). -/
def classCount (s : Stat) (id : String) : Nat :=
  s.notInMS.count id
    + (if (s.notInOpen id).isSome then 1 else 0)
    + (if (s.upToDate id).isSome then 1 else 0)
    + (if (s.outdated id).isSome then 1 else 0)
    + (if (s.unstable id).isSome then 1 else 0)

/-- The single-classification invariant: `id` appears under at most one
classification bucket. -/
def singleClass (s : Stat) (id : String) : Prop :=
  classCount s id ≤ 1

/-! ## `updateStat` (lines 127–162) -/

/-- The Open VSX half of `updateStat` (lines 129–133): on a fulfilled query
the context's `ovsxVersion`/`ovsxLastUpdated` are assigned from the first
listed version (no prerelease filtering); on a rejected query they keep
their previous values. -/
def updateStatCtx (ctx : PublishContext) (ovsxRes : Option (Option OvsxExt)) :
    PublishContext :=
  match ovsxRes with
  | none => ctx
  | some v =>
    { ctx with
      ovsxVersion := ((versionsOfOvsx v).head?).map (fun x => x.version)
      ovsxLastUpdated := ((versionsOfOvsx v).head?).map (fun x => x.lastUpdated) }

/-- The `extStat` record (lines 134–135); the millisecond difference is
divided by `1000 * 3600 * 24` (modelled as exact rational division). -/
def mkExtStat (ctx : PublishContext) : ExtStat :=
  { msInstalls := ctx.msInstalls
    msVersion := ctx.msVersion
    openVersion := ctx.ovsxVersion
    daysInBetween :=
      match ctx.ovsxLastUpdated, ctx.msLastUpdated with
      | some a, some b => some (((a - b : Int) : Rat) / (1000 * 3600 * 24))
      | _, _ => none }

/-- The clearing block of `updateStat` (lines 137–145): the id is spliced out
of `notInMS` (first occurrence) and deleted from the four classification maps
and from `hitMiss`, before anything is re-inserted. -/
def statClear (s : Stat) (id : String) : Stat :=
  { s with
    notInMS := s.notInMS.erase id
    notInOpen := upd s.notInOpen id none
    upToDate := upd s.upToDate id none
    outdated := upd s.outdated id none
    unstable := upd s.unstable id none
    hitMiss := upd s.hitMiss id none }

/-- The insertion performed by the branch of lines 147–157 that fired:
each `Classification` value writes exactly its own bucket. -/
def statInsertClass (s : Stat) (id : String) (es : ExtStat) :
    Classification → Stat
  | .notInMS => { s with notInMS := s.notInMS ++ [id] }
  | .notInOpen => { s with notInOpen := upd s.notInOpen id (some es) }
  | .upToDate => { s with upToDate := upd s.upToDate id (some es) }
  | .outdated => { s with outdated := upd s.outdated id (some es) }
  | .unstable => { s with unstable := upd s.unstable id (some es) }

/-- The `hitMiss` condition (line 159): `context.msVersion &&
context.msLastUpdated && monthAgo.getTime() <= context.msLastUpdated.getTime()`. -/
def hitMissCond (monthAgoTime : Int) (ctx : PublishContext) : Bool :=
  ctx.msVersion.isSome &&
    (match ctx.msLastUpdated with
     | some t => decide (monthAgoTime ≤ t)
     | none => false)

/-- The whole of `updateStat` (lines 127–162): refresh the context from the
Open VSX query, clear the id's prior entries, insert the fresh
classification, then set `hitMiss` when the source was updated within the
last month. Returns the new stat and the mutated context. -/
def updateStatFn (monthAgoTime : Int) (id : String) (ctx : PublishContext)
    (ovsxRes : Option (Option OvsxExt)) (s : Stat) : Stat × PublishContext :=
  let ctx1 := updateStatCtx ctx ovsxRes
  let es := mkExtStat ctx1
  let s1 := statClear s id
  let s2 := statInsertClass s1 id es (classify ctx1.msVersion ctx1.ovsxVersion)
  let s3 :=
    if hitMissCond monthAgoTime ctx1 then
      { s2 with hitMiss := upd s2.hitMiss id (some es) }
    else s2
  (s3, ctx1)

/-! ## Resolution descriptors and the dispatch chain (lines 167–224) -/

/-- The resolution descriptor produced by `resolveExtension` (shape as
consumed by `publish-extensions.js`: six optional string fields, read in the
dispatch chain of lines 195–224 and spread into `stat.resolutions`). -/
structure Resolution where
  releaseAsset : Option String := none
  releaseTag : Option String := none
  tag : Option String := none
  latest : Option String := none
  matchedLatest : Option String := none
  matched : Option String := none
deriving DecidableEq

/-- The value returned by `resolveExtension` as consumed by the orchestrator:
an optional resolution descriptor, an optional resolved version and the
filesystem path of the fetched content. -/
structure Resolved where
  resolution : Option Resolution
  version : Option SemVer
  path : String
deriving DecidableEq

/-- The optional chain `resolved?.resolution?.<field>`. -/
def resField (ro : Option Resolved) (f : Resolution → Option String) :
    Option String :=
  match ro with
  | none => none
  | some r =>
    match r.resolution with
    | none => none
    | some res => f res

/-- The branch taken by the dispatch chain, carrying the context assignments
it performs (`file` for a release asset, `repo`/`ref` otherwise). -/
inductive DispatchChoice where
  | releaseAsset (file : String) (asset : String)
  | releaseTag (repo ref : String)
  | tag (repo ref : String)
  | latest (repo ref : String)
  | matchedLatest (repo ref : String)
  | matched (repo ref : String)
deriving DecidableEq

/-- The dispatch chain of lines 195–224: the first set field among
`releaseAsset`, `releaseTag`, `tag`, `latest`, `matchedLatest`, `matched`
wins; when none is set (or the descriptor/result is absent) the string
`` `${id}: failed to resolve` `` is thrown. -/
def dispatchResolution (id : String) (ro : Option Resolved) :
    Except String DispatchChoice :=
  match ro with
  | none => .error (id ++ ": failed to resolve")
  | some r =>
    match r.resolution with
    | none => .error (id ++ ": failed to resolve")
    | some res =>
      match res.releaseAsset with
      | some a => .ok (.releaseAsset r.path a)
      | none =>
        match res.releaseTag with
        | some t => .ok (.releaseTag r.path t)
        | none =>
          match res.tag with
          | some t => .ok (.tag r.path t)
          | none =>
            match res.latest with
            | some t => .ok (.latest r.path t)
            | none =>
              match res.matchedLatest with
              | some t => .ok (.matchedLatest r.path t)
              | none =>
                match res.matched with
                | some t => .ok (.matched r.path t)
                | none => .error (id ++ ": failed to resolve")

/-- The context assignments of the winning dispatch branch (lines 197,
200–201, 204–205, 212–213, 216–217, 220–221). -/
def applyDispatch (ctx : PublishContext) : DispatchChoice → PublishContext
  | .releaseAsset f _ => { ctx with file := some f }
  | .releaseTag rp rf => { ctx with repo := some rp, ref := some rf }
  | .tag rp rf => { ctx with repo := some rp, ref := some rf }
  | .latest rp rf => { ctx with repo := some rp, ref := some rf }
  | .matchedLatest rp rf => { ctx with repo := some rp, ref := some rf }
  | .matched rp rf => { ctx with repo := some rp, ref := some rf }

/-- The `console.log` line of the winning dispatch branch; the `latest`
branch logs differently depending on whether an MS version is known
(lines 207–211). -/
def dispatchLogMsg (id : String) (msVersionKnown : Bool) :
    DispatchChoice → String
  | .releaseAsset _ a => id ++ ": resolved " ++ a ++ " from release"
  | .releaseTag _ t => id ++ ": resolved " ++ t ++ " from release tag"
  | .tag _ t => id ++ ": resolved " ++ t ++ " from tags"
  | .latest _ t =>
    if msVersionKnown then
      id ++ ": resolved " ++ t ++
        " from the very latest commit, since it is not actively maintained"
    else
      id ++ ": resolved " ++ t ++
        " from the very latest commit, since it is not published to MS marketplace"
  | .matchedLatest _ t => id ++ ": resolved " ++ t ++ " from the very latest commit"
  | .matched _ t =>
    id ++ ": resolved " ++ t ++ " from the latest commit on the last update date"

/-- The record stored in `stat.resolutions` (lines 171–175). -/
def mkResolutionEntry (ctx : PublishContext) (ro : Option Resolved) :
    ResolutionEntry :=
  { msInstalls := ctx.msInstalls
    msVersion := ctx.msVersion
    releaseAsset := resField ro (fun r => r.releaseAsset)
    releaseTag := resField ro (fun r => r.releaseTag)
    tag := resField ro (fun r => r.tag)
    latest := resField ro (fun r => r.latest)
    matchedLatest := resField ro (fun r => r.matchedLatest)
    matched := resField ro (fun r => r.matched) }

/-- The relabelling of the third skip rule (lines 189–190):
`stat.upToDate[id] = stat.outdated[id]; delete stat.outdated[id]`. When the
id has no `outdated` entry the assignment stores `undefined`, i.e. `none`. -/
def relabelLatest (s : Stat) (id : String) : Stat :=
  { s with
    upToDate := upd s.upToDate id (s.outdated id)
    outdated := upd s.outdated id none }

/-! ## Bounded execution (lines 230–253) -/

/-- What the spawned publish child does first: exits with a status code
before the deadline, fails to spawn (the `error` event), or is still running
when the deadline fires. -/
inductive UnitEvent where
  | exited (code : Nat)
  | spawnFailed (msg : String)
  | deadline
deriving DecidableEq

/-- The observable outcome of the bounded publish step: how the awaited
promise settled (`rejected = none` means it resolved), which signal (if any)
was sent to the child, whether the deadline timer is still armed afterwards,
and the delay the timer was armed with, in milliseconds. -/
structure BoundedResult where
  rejected : Option String
  killSignal : Option String
  timerArmedAfter : Bool
  delayMs : Int
deriving DecidableEq

/-- Lines 230–253: the child is spawned and a deadline timer armed with
`timeoutDelay * 60 * 1000` ms. A zero exit resolves the promise and control
reaches the `clearTimeout` of lines 251–253, disarming the timer. A non-zero
exit or a spawn error rejects the promise, so the `await` throws straight to
the `catch` block and the `clearTimeout` is never reached: the timer stays
armed. When the deadline fires first, the handler sends an immediate
`SIGKILL` (no graceful signal first) and rejects with the timeout message;
the one-shot timer has then fired, so it is no longer armed. -/
def runBounded (ev : UnitEvent) (timeoutDelay : Int) : BoundedResult :=
  let delayMs := timeoutDelay * 60 * 1000
  match ev with
  | .exited code =>
    if code = 0 then
      { rejected := none, killSignal := none, timerArmedAfter := false,
        delayMs := delayMs }
    else
      { rejected := some ("failed with exit status: " ++ toString code),
        killSignal := none, timerArmedAfter := true, delayMs := delayMs }
  | .spawnFailed msg =>
    { rejected := some msg, killSignal := none, timerArmedAfter := true,
      delayMs := delayMs }
  | .deadline =>
    { rejected := some ("timeout after " ++ toString timeoutDelay ++ " mins"),
      killSignal := some "SIGKILL", timerArmedAfter := false,
      delayMs := delayMs }

/-! ## The per-package orchestrator step (lines 99–261) -/

/-- A line of console output; `failCtx` models the pair of `console.error`
calls in the catch block (lines 258–259), which log the package id with the
full publish context and the error. -/
inductive LogEntry where
  | info (msg : String)
  | failCtx (id : String) (ctx : PublishContext) (err : String)
deriving DecidableEq

/-- The inputs and external-world behaviour for one package: its config
fields, the settled results of the two marketplace queries (outer `Option` =
settled status, inner = value definedness), the outcome of
`resolveExtension`, what the spawned child does, and the mirror query result
of the post-publish `updateStat`. -/
structure PkgInput where
  id : String
  timeout : Option Int
  msResult : Option (Option MSExt)
  ovsxResult : Option (Option OvsxExt)
  resolveOutcome : Except String (Option Resolved)
  execEvent : UnitEvent
  ovsxResultAfter : Option (Option OvsxExt)

/-- Run-wide configuration: the precomputed `monthAgo` timestamp and the
`FORCE` / `SKIP_BUILD` environment switches. -/
structure RunConfig where
  monthAgoTime : Int
  force : Bool
  skipBuild : Bool

/-- How the processing of one package ended. -/
inductive PkgOutcome where
  | skippedUpToDate
  | skippedUnstable
  | skippedLatest
  | skippedBuild
  | published
  | errored (msg : String)
deriving DecidableEq

/-- The result of processing one package: the new stat, how processing
ended, whether the publish child was spawned, and the console output. -/
structure StepResult where
  stat : Stat
  outcome : PkgOutcome
  execRan : Bool
  logs : List LogEntry

/-- The publishers whose extensions are recorded in `stat.msPublished`
(line 96). -/
def msPublisherNames : List String :=
  ["ms-python", "ms-toolsai", "ms-vscode", "dbaeumer", "GitHub", "Tyriar",
   "ms-azuretools", "msjsdiag", "ms-mssql", "vscjava", "ms-vsts"]

/-- `msPublishers.has(context.msPublisher)` (line 123); `Set.has(undefined)`
is false. -/
def msPublishedCond (ctx : PublishContext) : Bool :=
  match ctx.msPublisher with
  | some p => msPublisherNames.contains p
  | none => false

/-- `Number(extension.timeout)` with the integer check of lines 109–112:
a missing or non-integer timeout falls back to 5 minutes. -/
def timeoutDelayOf (t : Option Int) : Int :=
  match t with
  | some n => n
  | none => 5

/-- The body of the per-package loop (lines 106–260): build the MS context,
record `msPublished`, run `updateStat`, record the resolution, apply the
three skip rules (unless `FORCE`), dispatch the resolution, honour
`SKIP_BUILD`, run the bounded publish step and re-run `updateStat` on
success. Any thrown error is caught at the loop boundary: the id is pushed
onto `stat.failed` and the error is logged with the package context.
First stage: the `msPublished` recording of lines 123–125. -/
def statAfterMsPub (s0 : Stat) (p : PkgInput) : Stat :=
  let ctx0 := msContextOf p.msResult
  let entry : MsPubEntry :=
    { msInstalls := ctx0.msInstalls, msVersion := ctx0.msVersion }
  if msPublishedCond ctx0 then
    { s0 with msPublished := upd s0.msPublished p.id (some entry) }
  else s0

/-- The first `updateStat()` call of the loop body (line 164), applied after
the `msPublished` recording: yields the stat and the context as they stand
when the skip rules are evaluated. -/
def stage1 (cfg : RunConfig) (s0 : Stat) (p : PkgInput) : Stat × PublishContext :=
  updateStatFn cfg.monthAgoTime p.id (msContextOf p.msResult) p.ovsxResult
    (statAfterMsPub s0 p)

/-- The stat after `stat.resolutions[id]` is recorded (lines 171–175). -/
def statAfterRes (cfg : RunConfig) (s0 : Stat) (p : PkgInput)
    (ro : Option Resolved) : Stat :=
  let s2 := (stage1 cfg s0 p).1
  let entry := mkResolutionEntry (stage1 cfg s0 p).2 ro
  { s2 with resolutions := upd s2.resolutions p.id (some entry) }

/-- The context after `context.version = resolved?.version` (line 176). -/
def ctxAfterRes (cfg : RunConfig) (s0 : Stat) (p : PkgInput)
    (ro : Option Resolved) : PublishContext :=
  { (stage1 cfg s0 p).2 with version := ro.bind (fun r => r.version) }

/-- The execute phase (lines 226–255): honour `SKIP_BUILD`, run the bounded
publish step, and on a resolved promise re-run `updateStat`; a rejected
promise throws to the catch block, which pushes the id onto `failed` and
logs the error with the package context. -/
def execStage (cfg : RunConfig) (p : PkgInput) (s3 : Stat)
    (ctx3 : PublishContext) (choice : DispatchChoice) : StepResult :=
  if cfg.skipBuild then
    { stat := s3, outcome := .skippedBuild, execRan := false
      logs := [.info (dispatchLogMsg p.id ctx3.msVersion.isSome choice)] }
  else
    match (runBounded p.execEvent (timeoutDelayOf p.timeout)).rejected with
    | some msg =>
      { stat := { s3 with failed := s3.failed ++ [p.id] }
        outcome := .errored msg, execRan := true
        logs := [.info (dispatchLogMsg p.id ctx3.msVersion.isSome choice),
                 .failCtx p.id ctx3 msg] }
    | none =>
      { stat := (updateStatFn cfg.monthAgoTime p.id ctx3 p.ovsxResultAfter s3).1
        outcome := .published, execRan := true
        logs := [.info (dispatchLogMsg p.id ctx3.msVersion.isSome choice)] }

/-- The dispatch chain applied to the stat/context of the proceed path; a
thrown `failed to resolve` is caught at the loop boundary (lines 195–224,
256–260). -/
def dispatchStage (cfg : RunConfig) (p : PkgInput) (s3 : Stat)
    (ctx2 : PublishContext) (ro : Option Resolved) : StepResult :=
  match dispatchResolution p.id ro with
  | .error msg =>
    { stat := { s3 with failed := s3.failed ++ [p.id] }
      outcome := .errored msg, execRan := false
      logs := [.failCtx p.id ctx2 msg] }
  | .ok choice => execStage cfg p s3 (applyDispatch ctx2 choice) choice

def processPackage (cfg : RunConfig) (s0 : Stat) (p : PkgInput) : StepResult :=
  match p.resolveOutcome with
  | .error msg =>
    { stat := { (stage1 cfg s0 p).1 with
        failed := (stage1 cfg s0 p).1.failed ++ [p.id] }
      outcome := .errored msg, execRan := false
      logs := [.failCtx p.id (stage1 cfg s0 p).2 msg] }
  | .ok ro =>
    if cfg.force = false ∧ ((statAfterRes cfg s0 p ro).upToDate p.id).isSome then
      { stat := statAfterRes cfg s0 p ro, outcome := .skippedUpToDate
        execRan := false
        logs := [.info (p.id ++ ": skipping, since up-to-date")] }
    else if cfg.force = false ∧ ((statAfterRes cfg s0 p ro).unstable p.id).isSome then
      { stat := statAfterRes cfg s0 p ro, outcome := .skippedUnstable
        execRan := false
        logs := [.info (p.id ++
          ": skipping, since version in Open VSX is never than in MS marketplace")] }
    else if cfg.force = false ∧ (resField ro (fun r => r.latest)).isSome ∧
        (ctxAfterRes cfg s0 p ro).version = (ctxAfterRes cfg s0 p ro).ovsxVersion then
      { stat := relabelLatest (statAfterRes cfg s0 p ro) p.id
        outcome := .skippedLatest, execRan := false
        logs := [.info (p.id ++
          ": skipping, since very latest commit already published to Open VSX")] }
    else
      dispatchStage cfg p (statAfterRes cfg s0 p ro) (ctxAfterRes cfg s0 p ro) ro

/-- The batch loop continued from an intermediate stat. -/
def runBatchFrom (cfg : RunConfig) (s : Stat) (pkgs : List PkgInput) : Stat :=
  pkgs.foldl (fun acc p => (processPackage cfg acc p).stat) s

/-- The whole batch (lines 99–261): packages processed strictly
sequentially, starting from the empty stat; the resulting stat is what line
263 serializes to `/tmp/stat.json` once, after the loop. -/
def runBatch (cfg : RunConfig) (pkgs : List PkgInput) : Stat :=
  runBatchFrom cfg statEmpty pkgs

/-- The run configuration as computed before the loop: `monthAgo` is the
current date with its month decremented (lines 97–98). -/
def runConfigOf (now : JSDate) (force skipBuild : Bool) : RunConfig :=
  { monthAgoTime := (JSDate.setMonthSub1 now).getTime
    force := force
    skipBuild := skipBuild }

/-! ## Concrete example inputs used by the theorems -/

def exV1 : SemVer := ⟨1, 0, 0, [], ""⟩

def exV2 : SemVer := ⟨2, 0, 0, [], ""⟩

def exGV (v : SemVer) : GalleryVersion := ⟨v, 1772409600000, none⟩

def exMS (v : SemVer) : Option (Option MSExt) :=
  some (some ⟨[exGV v], none, "somepub"⟩)

def exOV (v : SemVer) : Option (Option OvsxExt) := some (some ⟨[exGV v]⟩)

def exCfg : RunConfig := ⟨1772496000000, false, false⟩

def exCfgForce : RunConfig := ⟨1772496000000, true, false⟩

/-- Source at 2.0.0, mirror at 1.0.0, a plain tag resolution, a clean exit:
the package publishes. -/
def exPkgOutdated : PkgInput :=
  { id := "a.b", timeout := none, msResult := exMS exV2
    ovsxResult := exOV exV1
    resolveOutcome := .ok (some ⟨some { tag := some "v2.0.0" }, some exV2, "/tmp/repository"⟩)
    execEvent := .exited 0, ovsxResultAfter := exOV exV2 }

/-- Source and mirror both at 1.0.0: skipped as up-to-date. -/
def exPkgUpToDate : PkgInput :=
  { id := "a.b", timeout := none, msResult := exMS exV1
    ovsxResult := exOV exV1
    resolveOutcome := .ok (some ⟨some { tag := some "v1.0.0" }, some exV1, "/tmp/repository"⟩)
    execEvent := .exited 0, ovsxResultAfter := exOV exV1 }

/-- Mirror ahead of source: skipped as unstable. -/
def exPkgUnstable : PkgInput :=
  { id := "a.b", timeout := none, msResult := exMS exV1
    ovsxResult := exOV exV2
    resolveOutcome := .ok (some ⟨some { tag := some "v1.0.0" }, some exV1, "/tmp/repository"⟩)
    execEvent := .exited 0, ovsxResultAfter := exOV exV2 }

/-- Outdated, but the latest-commit resolution already matches the mirror
version: skipped and relabelled up-to-date. -/
def exPkgLatest : PkgInput :=
  { id := "a.b", timeout := none, msResult := exMS exV2
    ovsxResult := exOV exV1
    resolveOutcome := .ok (some ⟨some { latest := some "abc1234" }, some exV1, "/tmp/repository"⟩)
    execEvent := .exited 0, ovsxResultAfter := exOV exV1 }

/-- `resolveExtension` found nothing: the dispatch chain throws. -/
def exPkgUnresolved : PkgInput :=
  { id := "a.b", timeout := none, msResult := exMS exV2
    ovsxResult := exOV exV1
    resolveOutcome := .ok none
    execEvent := .exited 0, ovsxResultAfter := exOV exV1 }

/-- The publish child is still running when the deadline fires. -/
def exPkgTimeout : PkgInput :=
  { id := "a.b", timeout := some 7, msResult := exMS exV2
    ovsxResult := exOV exV1
    resolveOutcome := .ok (some ⟨some { tag := some "v2.0.0" }, some exV2, "/tmp/repository"⟩)
    execEvent := .deadline, ovsxResultAfter := exOV exV1 }

/-- A resolution offering both a release asset and a plain tag. -/
def exResBoth : Resolved :=
  ⟨some { releaseAsset := some "ext.vsix", tag := some "v2.0.0" }, some exV2, "/tmp/download/ext.vsix"⟩

/-! ## Basic lemmas about the accounting primitives -/

theorem upd_self {α : Type} (m : String → Option α) (id : String)
    (v : Option α) : upd m id v id = v := by
  simp [upd]

theorem upd_other {α : Type} (m : String → Option α) {id q : String}
    (v : Option α) (h : q ≠ id) : upd m id v q = m q := by
  simp [upd, h]

theorem classCount_set_failed (s : Stat) (x : List String) (q : String) :
    classCount { s with failed := x } q = classCount s q := rfl

theorem classCount_set_resolutions (s : Stat)
    (x : String → Option ResolutionEntry) (q : String) :
    classCount { s with resolutions := x } q = classCount s q := rfl

theorem classCount_set_msPublished (s : Stat)
    (x : String → Option MsPubEntry) (q : String) :
    classCount { s with msPublished := x } q = classCount s q := rfl

theorem classCount_set_hitMiss (s : Stat) (x : String → Option ExtStat)
    (q : String) : classCount { s with hitMiss := x } q = classCount s q := rfl

theorem classCount_clear_self (s : Stat) (id : String)
    (h : singleClass s id) : classCount (statClear s id) id = 0 := by
  unfold singleClass classCount at h
  unfold classCount statClear
  simp only [upd_self, Option.isSome_none, Bool.false_eq_true, if_false,
    List.count_erase_self]
  omega

theorem classCount_clear_other (s : Stat) {id q : String} (h : q ≠ id) :
    classCount (statClear s id) q = classCount s q := by
  unfold classCount statClear
  simp only [upd_other _ _ h, List.count_erase_of_ne h]

theorem classCount_insert_le (s : Stat) (id : String) (es : ExtStat)
    (c : Classification) :
    classCount (statInsertClass s id es c) id ≤ classCount s id + 1 := by
  cases c <;>
    simp [statInsertClass, classCount, upd_self, List.count_append,
      List.count_singleton_self] <;>
    omega

theorem classCount_insert_other (s : Stat) {id q : String} (es : ExtStat)
    (c : Classification) (h : q ≠ id) :
    classCount (statInsertClass s id es c) q = classCount s q := by
  have hc : List.count q [id] = 0 := by
    simp [List.count_singleton, h]
  cases c <;>
    simp [statInsertClass, classCount, upd_other _ _ h,
      List.count_append, hc]

theorem updateStatFn_classCount_eq (m : Int) (id : String)
    (ctx : PublishContext) (o : Option (Option OvsxExt)) (s : Stat)
    (q : String) :
    classCount (updateStatFn m id ctx o s).1 q =
      classCount (statInsertClass (statClear s id) id
        (mkExtStat (updateStatCtx ctx o))
        (classify (updateStatCtx ctx o).msVersion (updateStatCtx ctx o).ovsxVersion)) q := by
  unfold updateStatFn
  dsimp only
  by_cases hc : hitMissCond m (updateStatCtx ctx o) = true
  · rw [if_pos hc]; rfl
  · rw [if_neg hc]

theorem updateStatFn_singleClass_self (m : Int) (id : String)
    (ctx : PublishContext) (o : Option (Option OvsxExt)) (s : Stat)
    (h : singleClass s id) : singleClass (updateStatFn m id ctx o s).1 id := by
  unfold singleClass
  rw [updateStatFn_classCount_eq]
  have h0 := classCount_clear_self s id h
  have h1 := classCount_insert_le (statClear s id) id
    (mkExtStat (updateStatCtx ctx o))
    (classify (updateStatCtx ctx o).msVersion (updateStatCtx ctx o).ovsxVersion)
  omega

theorem updateStatFn_classCount_other (m : Int) (id : String)
    (ctx : PublishContext) (o : Option (Option OvsxExt)) (s : Stat)
    {q : String} (hq : q ≠ id) :
    classCount (updateStatFn m id ctx o s).1 q = classCount s q := by
  rw [updateStatFn_classCount_eq,
    classCount_insert_other _ _ _ hq, classCount_clear_other _ hq]

theorem relabel_singleClass_self (s : Stat) (id : String)
    (h : singleClass s id) : singleClass (relabelLatest s id) id := by
  unfold singleClass classCount at h ⊢
  unfold relabelLatest
  simp only [upd_self, Option.isSome_none, Bool.false_eq_true, if_false]
  cases hx : s.outdated id <;> simp only [hx] at h ⊢ <;>
    simp only [Option.isSome_none, Option.isSome_some, Bool.false_eq_true,
      if_false, if_true] at h ⊢ <;> omega

theorem relabel_classCount_other (s : Stat) {id q : String} (hq : q ≠ id) :
    classCount (relabelLatest s id) q = classCount s q := by
  unfold relabelLatest classCount
  simp only [upd_other _ _ hq]

theorem statAfterMsPub_classCount (s : Stat) (p : PkgInput) (q : String) :
    classCount (statAfterMsPub s p) q = classCount s q := by
  unfold statAfterMsPub
  dsimp only
  split <;> rfl

theorem stage1_singleClass (cfg : RunConfig) (s : Stat) (p : PkgInput)
    (h : ∀ q, singleClass s q) : ∀ q, singleClass (stage1 cfg s p).1 q := by
  intro q
  unfold stage1
  by_cases hq : q = p.id
  · subst hq
    refine updateStatFn_singleClass_self _ _ _ _ _ ?_
    unfold singleClass
    rw [statAfterMsPub_classCount]
    exact h _
  · unfold singleClass
    rw [updateStatFn_classCount_other _ _ _ _ _ hq, statAfterMsPub_classCount]
    exact h q

theorem statAfterRes_singleClass (cfg : RunConfig) (s : Stat) (p : PkgInput)
    (ro : Option Resolved) (h : ∀ q, singleClass s q) :
    ∀ q, singleClass (statAfterRes cfg s p ro) q := by
  intro q
  have he : classCount (statAfterRes cfg s p ro) q
      = classCount (stage1 cfg s p).1 q := rfl
  unfold singleClass
  rw [he]
  exact stage1_singleClass cfg s p h q

theorem processPackage_singleClass (cfg : RunConfig) (s : Stat) (p : PkgInput)
    (h : ∀ q, singleClass s q) :
    ∀ q, singleClass (processPackage cfg s p).stat q := by
  have h1 := stage1_singleClass cfg s p h
  intro q
  unfold processPackage
  cases hro : p.resolveOutcome with
  | error msg =>
    dsimp only
    exact h1 q
  | ok ro =>
    have h3 := statAfterRes_singleClass cfg s p ro h
    dsimp only
    split_ifs with hA hB hC
    · exact h3 q
    · exact h3 q
    · by_cases hq : q = p.id
      · subst hq
        exact relabel_singleClass_self _ _ (h3 _)
      · unfold singleClass
        rw [relabel_classCount_other _ hq]
        exact h3 q
    · unfold dispatchStage
      cases hd : dispatchResolution p.id ro with
      | error msg =>
        dsimp only
        exact h3 q
      | ok choice =>
        unfold execStage
        split_ifs with hSB
        · exact h3 q
        · cases hbr : (runBounded p.execEvent (timeoutDelayOf p.timeout)).rejected with
          | some msg =>
            dsimp only
            exact h3 q
          | none =>
            dsimp only
            by_cases hq : q = p.id
            · subst hq
              exact updateStatFn_singleClass_self _ _ _ _ _ (h3 _)
            · unfold singleClass
              rw [updateStatFn_classCount_other _ _ _ _ _ hq]
              exact h3 q

theorem statEmpty_singleClass : ∀ q, singleClass statEmpty q := by
  intro q
  simp [singleClass, classCount, statEmpty]

theorem runBatchFrom_singleClass (cfg : RunConfig) (pkgs : List PkgInput) :
    ∀ s, (∀ q, singleClass s q) → ∀ q, singleClass (runBatchFrom cfg s pkgs) q := by
  induction pkgs with
  | nil => intro s hs q; exact hs q
  | cons p rest ih =>
    intro s hs q
    exact ih _ (processPackage_singleClass cfg s p hs) q

theorem runBatch_singleClass (cfg : RunConfig) (pkgs : List PkgInput) :
    ∀ q, singleClass (runBatch cfg pkgs) q :=
  runBatchFrom_singleClass cfg pkgs statEmpty statEmpty_singleClass

/-! ## Field-preservation lemmas -/

theorem statClear_failed (s : Stat) (id : String) :
    (statClear s id).failed = s.failed := rfl

theorem statInsertClass_failed (s : Stat) (id : String) (es : ExtStat)
    (c : Classification) : (statInsertClass s id es c).failed = s.failed := by
  cases c <;> rfl

theorem updateStatFn_failed (m : Int) (id : String) (ctx : PublishContext)
    (o : Option (Option OvsxExt)) (s : Stat) :
    (updateStatFn m id ctx o s).1.failed = s.failed := by
  unfold updateStatFn
  dsimp only
  by_cases hc : hitMissCond m (updateStatCtx ctx o) = true
  · rw [if_pos hc]
    show (statInsertClass (statClear s id) id _ _).failed = s.failed
    rw [statInsertClass_failed, statClear_failed]
  · rw [if_neg hc]
    show (statInsertClass (statClear s id) id _ _).failed = s.failed
    rw [statInsertClass_failed, statClear_failed]

theorem statAfterMsPub_failed (s : Stat) (p : PkgInput) :
    (statAfterMsPub s p).failed = s.failed := by
  unfold statAfterMsPub
  dsimp only
  split <;> rfl

theorem stage1_failed (cfg : RunConfig) (s : Stat) (p : PkgInput) :
    (stage1 cfg s p).1.failed = s.failed := by
  unfold stage1
  rw [updateStatFn_failed, statAfterMsPub_failed]

theorem statAfterRes_failed (cfg : RunConfig) (s : Stat) (p : PkgInput)
    (ro : Option Resolved) :
    (statAfterRes cfg s p ro).failed = s.failed := by
  show (stage1 cfg s p).1.failed = s.failed
  exact stage1_failed cfg s p

theorem relabelLatest_failed (s : Stat) (id : String) :
    (relabelLatest s id).failed = s.failed := rfl

theorem statClear_other (s : Stat) {id q : String} (hq : q ≠ id) :
    (statClear s id).upToDate q = s.upToDate q ∧
    (statClear s id).outdated q = s.outdated q ∧
    (statClear s id).unstable q = s.unstable q ∧
    (statClear s id).notInOpen q = s.notInOpen q ∧
    List.count q (statClear s id).notInMS = List.count q s.notInMS :=
  ⟨upd_other _ _ hq, upd_other _ _ hq, upd_other _ _ hq, upd_other _ _ hq,
    List.count_erase_of_ne hq _⟩

theorem count_id_singleton_zero {id q : String} (hq : q ≠ id) :
    List.count q [id] = 0 :=
  List.count_eq_zero.mpr (by simp [hq])

theorem statInsertClass_other (s : Stat) {id q : String} (es : ExtStat)
    (c : Classification) (hq : q ≠ id) :
    (statInsertClass s id es c).upToDate q = s.upToDate q ∧
    (statInsertClass s id es c).outdated q = s.outdated q ∧
    (statInsertClass s id es c).unstable q = s.unstable q ∧
    (statInsertClass s id es c).notInOpen q = s.notInOpen q ∧
    List.count q (statInsertClass s id es c).notInMS
      = List.count q s.notInMS := by
  cases c <;>
    refine ⟨?_, ?_, ?_, ?_, ?_⟩ <;>
    first
      | rfl
      | exact upd_other _ _ hq
      | simp [statInsertClass, List.count_append, count_id_singleton_zero hq]

theorem updateStatFn_other (m : Int) (id : String) (ctx : PublishContext)
    (o : Option (Option OvsxExt)) (s : Stat) {q : String} (hq : q ≠ id) :
    (updateStatFn m id ctx o s).1.upToDate q = s.upToDate q ∧
    (updateStatFn m id ctx o s).1.outdated q = s.outdated q ∧
    (updateStatFn m id ctx o s).1.unstable q = s.unstable q ∧
    (updateStatFn m id ctx o s).1.notInOpen q = s.notInOpen q ∧
    List.count q (updateStatFn m id ctx o s).1.notInMS
      = List.count q s.notInMS := by
  have hI := statInsertClass_other (statClear s id)
    (mkExtStat (updateStatCtx ctx o))
    (classify (updateStatCtx ctx o).msVersion (updateStatCtx ctx o).ovsxVersion) hq
  have hN := statClear_other s hq
  unfold updateStatFn
  dsimp only
  by_cases hc : hitMissCond m (updateStatCtx ctx o) = true
  · rw [if_pos hc]
    exact ⟨hI.1.trans hN.1, hI.2.1.trans hN.2.1, hI.2.2.1.trans hN.2.2.1,
      hI.2.2.2.1.trans hN.2.2.2.1, hI.2.2.2.2.trans hN.2.2.2.2⟩
  · rw [if_neg hc]
    exact ⟨hI.1.trans hN.1, hI.2.1.trans hN.2.1, hI.2.2.1.trans hN.2.2.1,
      hI.2.2.2.1.trans hN.2.2.2.1, hI.2.2.2.2.trans hN.2.2.2.2⟩

theorem statAfterMsPub_other (s : Stat) (p : PkgInput) (q : String) :
    (statAfterMsPub s p).upToDate q = s.upToDate q ∧
    (statAfterMsPub s p).outdated q = s.outdated q ∧
    (statAfterMsPub s p).unstable q = s.unstable q ∧
    (statAfterMsPub s p).notInOpen q = s.notInOpen q ∧
    List.count q (statAfterMsPub s p).notInMS = List.count q s.notInMS := by
  unfold statAfterMsPub
  dsimp only
  split <;> exact ⟨rfl, rfl, rfl, rfl, rfl⟩

theorem stage1_other (cfg : RunConfig) (s : Stat) (p : PkgInput) {q : String}
    (hq : q ≠ p.id) :
    (stage1 cfg s p).1.upToDate q = s.upToDate q ∧
    (stage1 cfg s p).1.outdated q = s.outdated q ∧
    (stage1 cfg s p).1.unstable q = s.unstable q ∧
    (stage1 cfg s p).1.notInOpen q = s.notInOpen q ∧
    List.count q (stage1 cfg s p).1.notInMS = List.count q s.notInMS := by
  have hU := updateStatFn_other cfg.monthAgoTime p.id (msContextOf p.msResult)
    p.ovsxResult (statAfterMsPub s p) hq
  have hM := statAfterMsPub_other s p q
  exact ⟨hU.1.trans hM.1, hU.2.1.trans hM.2.1, hU.2.2.1.trans hM.2.2.1,
    hU.2.2.2.1.trans hM.2.2.2.1, hU.2.2.2.2.trans hM.2.2.2.2⟩

theorem relabelLatest_other (s : Stat) {id q : String} (hq : q ≠ id) :
    (relabelLatest s id).upToDate q = s.upToDate q ∧
    (relabelLatest s id).outdated q = s.outdated q ∧
    (relabelLatest s id).unstable q = s.unstable q ∧
    (relabelLatest s id).notInOpen q = s.notInOpen q ∧
    List.count q (relabelLatest s id).notInMS = List.count q s.notInMS :=
  ⟨upd_other _ _ hq, upd_other _ _ hq, rfl, rfl, rfl⟩

theorem processPackage_errored (cfg : RunConfig) (s : Stat) (p : PkgInput)
    (msg : String) (h : (processPackage cfg s p).outcome = .errored msg) :
    (processPackage cfg s p).stat.failed = s.failed ++ [p.id] ∧
    ∃ c, LogEntry.failCtx p.id c msg ∈ (processPackage cfg s p).logs := by
  unfold processPackage at h ⊢
  cases hro : p.resolveOutcome with
  | error m0 =>
    rw [hro] at h
    dsimp only at h ⊢
    simp only [PkgOutcome.errored.injEq] at h
    subst h
    refine ⟨?_, ⟨(stage1 cfg s p).2, by simp⟩⟩
    rw [stage1_failed]
  | ok ro =>
    rw [hro] at h
    dsimp only at h ⊢
    by_cases hA : cfg.force = false ∧
        ((statAfterRes cfg s p ro).upToDate p.id).isSome = true
    · rw [if_pos hA] at h; simp at h
    rw [if_neg hA] at h ⊢
    by_cases hB : cfg.force = false ∧
        ((statAfterRes cfg s p ro).unstable p.id).isSome = true
    · rw [if_pos hB] at h; simp at h
    rw [if_neg hB] at h ⊢
    by_cases hC : cfg.force = false ∧
        (resField ro fun r => r.latest).isSome = true ∧
        (ctxAfterRes cfg s p ro).version = (ctxAfterRes cfg s p ro).ovsxVersion
    · rw [if_pos hC] at h; simp at h
    rw [if_neg hC] at h ⊢
    unfold dispatchStage at h ⊢
    cases hd : dispatchResolution p.id ro with
    | error m0 =>
      rw [hd] at h
      dsimp only at h ⊢
      simp only [PkgOutcome.errored.injEq] at h
      subst h
      constructor
      · show (statAfterRes cfg s p ro).failed ++ [p.id] = s.failed ++ [p.id]
        rw [statAfterRes_failed]
      · exact ⟨ctxAfterRes cfg s p ro, by simp⟩
    | ok choice =>
      rw [hd] at h
      dsimp only at h ⊢
      unfold execStage at h ⊢
      by_cases hSB : cfg.skipBuild = true
      · rw [if_pos hSB] at h; simp at h
      rw [if_neg hSB] at h ⊢
      cases hbr : (runBounded p.execEvent (timeoutDelayOf p.timeout)).rejected with
      | some m0 =>
        rw [hbr] at h
        dsimp only at h ⊢
        simp only [PkgOutcome.errored.injEq] at h
        subst h
        constructor
        · show (statAfterRes cfg s p ro).failed ++ [p.id] = s.failed ++ [p.id]
          rw [statAfterRes_failed]
        · exact ⟨applyDispatch (ctxAfterRes cfg s p ro) choice, by simp⟩
      | none =>
        rw [hbr] at h
        simp at h

theorem processPackage_not_errored (cfg : RunConfig) (s : Stat) (p : PkgInput)
    (h : ∀ msg, (processPackage cfg s p).outcome ≠ .errored msg) :
    (processPackage cfg s p).stat.failed = s.failed := by
  unfold processPackage at h ⊢
  cases hro : p.resolveOutcome with
  | error m0 =>
    rw [hro] at h
    dsimp only at h
    exact absurd rfl (h m0)
  | ok ro =>
    rw [hro] at h
    dsimp only at h ⊢
    by_cases hA : cfg.force = false ∧
        ((statAfterRes cfg s p ro).upToDate p.id).isSome = true
    · rw [if_pos hA]; exact statAfterRes_failed cfg s p ro
    rw [if_neg hA] at h ⊢
    by_cases hB : cfg.force = false ∧
        ((statAfterRes cfg s p ro).unstable p.id).isSome = true
    · rw [if_pos hB]; exact statAfterRes_failed cfg s p ro
    rw [if_neg hB] at h ⊢
    by_cases hC : cfg.force = false ∧
        (resField ro fun r => r.latest).isSome = true ∧
        (ctxAfterRes cfg s p ro).version = (ctxAfterRes cfg s p ro).ovsxVersion
    · rw [if_pos hC]
      rw [relabelLatest_failed]
      exact statAfterRes_failed cfg s p ro
    rw [if_neg hC] at h ⊢
    unfold dispatchStage at h ⊢
    cases hd : dispatchResolution p.id ro with
    | error m0 =>
      rw [hd] at h
      dsimp only at h
      exact absurd rfl (h m0)
    | ok choice =>
      rw [hd] at h
      dsimp only at h ⊢
      unfold execStage at h ⊢
      by_cases hSB : cfg.skipBuild = true
      · rw [if_pos hSB]; exact statAfterRes_failed cfg s p ro
      rw [if_neg hSB] at h ⊢
      cases hbr : (runBounded p.execEvent (timeoutDelayOf p.timeout)).rejected with
      | some m0 =>
        rw [hbr] at h
        dsimp only at h
        exact absurd rfl (h m0)
      | none =>
        dsimp only
        rw [updateStatFn_failed, statAfterRes_failed]

theorem processPackage_other (cfg : RunConfig) (s : Stat) (p : PkgInput)
    {q : String} (hq : q ≠ p.id) :
    (processPackage cfg s p).stat.upToDate q = s.upToDate q ∧
    (processPackage cfg s p).stat.outdated q = s.outdated q ∧
    (processPackage cfg s p).stat.unstable q = s.unstable q ∧
    (processPackage cfg s p).stat.notInOpen q = s.notInOpen q ∧
    List.count q (processPackage cfg s p).stat.notInMS
      = List.count q s.notInMS := by
  have hS := stage1_other cfg s p hq
  unfold processPackage
  cases hro : p.resolveOutcome with
  | error m0 =>
    dsimp only
    exact hS
  | ok ro =>
    dsimp only
    split_ifs with hA hB hC
    · exact hS
    · exact hS
    · have hR := @relabelLatest_other (statAfterRes cfg s p ro) p.id q hq
      exact ⟨hR.1.trans hS.1, hR.2.1.trans hS.2.1, hR.2.2.1.trans hS.2.2.1,
        hR.2.2.2.1.trans hS.2.2.2.1, hR.2.2.2.2.trans hS.2.2.2.2⟩
    · unfold dispatchStage
      cases hd : dispatchResolution p.id ro with
      | error m0 =>
        dsimp only
        exact hS
      | ok choice =>
        dsimp only
        unfold execStage
        split_ifs with hSB
        · exact hS
        · cases hbr : (runBounded p.execEvent (timeoutDelayOf p.timeout)).rejected with
          | some m0 =>
            dsimp only
            exact hS
          | none =>
            dsimp only
            have hU := updateStatFn_other cfg.monthAgoTime p.id
              (applyDispatch (ctxAfterRes cfg s p ro) choice) p.ovsxResultAfter
              (statAfterRes cfg s p ro) hq
            exact ⟨hU.1.trans hS.1, hU.2.1.trans hS.2.1,
              hU.2.2.1.trans hS.2.2.1, hU.2.2.2.1.trans hS.2.2.2.1,
              hU.2.2.2.2.trans hS.2.2.2.2⟩

theorem runBatchFrom_append (cfg : RunConfig) (s : Stat)
    (ps qs : List PkgInput) :
    runBatchFrom cfg s (ps ++ qs) = runBatchFrom cfg (runBatchFrom cfg s ps) qs := by
  unfold runBatchFrom
  exact List.foldl_append _ _ _ _

theorem statInsertClass_hitMiss (s : Stat) (id : String) (es : ExtStat)
    (c : Classification) : (statInsertClass s id es c).hitMiss = s.hitMiss := by
  cases c <;> rfl

theorem updateStatFn_buckets_self (m : Int) (id : String)
    (ctx : PublishContext) (o : Option (Option OvsxExt)) (s : Stat) :
    (updateStatFn m id ctx o s).1.upToDate id =
      (if classify (updateStatCtx ctx o).msVersion (updateStatCtx ctx o).ovsxVersion
          = Classification.upToDate
       then some (mkExtStat (updateStatCtx ctx o)) else none) ∧
    (updateStatFn m id ctx o s).1.outdated id =
      (if classify (updateStatCtx ctx o).msVersion (updateStatCtx ctx o).ovsxVersion
          = Classification.outdated
       then some (mkExtStat (updateStatCtx ctx o)) else none) ∧
    (updateStatFn m id ctx o s).1.unstable id =
      (if classify (updateStatCtx ctx o).msVersion (updateStatCtx ctx o).ovsxVersion
          = Classification.unstable
       then some (mkExtStat (updateStatCtx ctx o)) else none) ∧
    (updateStatFn m id ctx o s).1.notInOpen id =
      (if classify (updateStatCtx ctx o).msVersion (updateStatCtx ctx o).ovsxVersion
          = Classification.notInOpen
       then some (mkExtStat (updateStatCtx ctx o)) else none) := by
  unfold updateStatFn
  dsimp only
  by_cases hc : hitMissCond m (updateStatCtx ctx o) = true
  · rw [if_pos hc]
    show (statInsertClass (statClear s id) id _ _).upToDate id = _ ∧
      (statInsertClass (statClear s id) id _ _).outdated id = _ ∧
      (statInsertClass (statClear s id) id _ _).unstable id = _ ∧
      (statInsertClass (statClear s id) id _ _).notInOpen id = _
    cases hcl : classify (updateStatCtx ctx o).msVersion
        (updateStatCtx ctx o).ovsxVersion <;>
      simp [statInsertClass, statClear, upd_self]
  · rw [if_neg hc]
    cases hcl : classify (updateStatCtx ctx o).msVersion
        (updateStatCtx ctx o).ovsxVersion <;>
      simp [statInsertClass, statClear, upd_self]

theorem updateStatFn_hitMiss_self (m : Int) (id : String)
    (ctx : PublishContext) (o : Option (Option OvsxExt)) (s : Stat) :
    ((updateStatFn m id ctx o s).1.hitMiss id).isSome
      = hitMissCond m (updateStatCtx ctx o) := by
  unfold updateStatFn
  dsimp only
  by_cases hc : hitMissCond m (updateStatCtx ctx o) = true
  · rw [if_pos hc, hc]
    simp [upd_self]
  · rw [if_neg hc]
    rw [statInsertClass_hitMiss]
    show ((upd s.hitMiss id none) id).isSome = _
    simp [upd_self]
    exact (Bool.not_eq_true _).mp hc

theorem updateStatFn_notInMS_self (m : Int) (id : String)
    (ctx : PublishContext) (o : Option (Option OvsxExt)) (s : Stat)
    (h : singleClass s id) :
    (id ∈ (updateStatFn m id ctx o s).1.notInMS ↔
      classify (updateStatCtx ctx o).msVersion (updateStatCtx ctx o).ovsxVersion
        = Classification.notInMS) := by
  have h0 := classCount_clear_self s id h
  have hcnt : List.count id (statClear s id).notInMS = 0 := by
    unfold classCount at h0
    omega
  have hmem : id ∉ (statClear s id).notInMS := by
    rw [← List.count_eq_zero]
    exact hcnt
  unfold updateStatFn
  dsimp only
  by_cases hc : hitMissCond m (updateStatCtx ctx o) = true
  · rw [if_pos hc]
    show id ∈ (statInsertClass (statClear s id) id _ _).notInMS ↔ _
    cases hcl : classify (updateStatCtx ctx o).msVersion
        (updateStatCtx ctx o).ovsxVersion <;>
      simp [statInsertClass, hmem, hcl]
  · rw [if_neg hc]
    cases hcl : classify (updateStatCtx ctx o).msVersion
        (updateStatCtx ctx o).ovsxVersion <;>
      simp [statInsertClass, hmem, hcl]

/-! ## Dispatch and execute path lemmas -/

theorem dispatch_releaseAsset (id : String) (r : Resolved) (res : Resolution)
    (a : String) (h1 : r.resolution = some res)
    (h2 : res.releaseAsset = some a) :
    dispatchResolution id (some r) = .ok (.releaseAsset r.path a) := by
  simp [dispatchResolution, h1, h2]

theorem dispatch_releaseTag (id : String) (r : Resolved) (res : Resolution)
    (t : String) (h1 : r.resolution = some res)
    (h2 : res.releaseAsset = none) (h3 : res.releaseTag = some t) :
    dispatchResolution id (some r) = .ok (.releaseTag r.path t) := by
  simp [dispatchResolution, h1, h2, h3]

theorem dispatch_tag (id : String) (r : Resolved) (res : Resolution)
    (t : String) (h1 : r.resolution = some res) (h2 : res.releaseAsset = none)
    (h3 : res.releaseTag = none) (h4 : res.tag = some t) :
    dispatchResolution id (some r) = .ok (.tag r.path t) := by
  simp [dispatchResolution, h1, h2, h3, h4]

theorem dispatch_latest (id : String) (r : Resolved) (res : Resolution)
    (t : String) (h1 : r.resolution = some res) (h2 : res.releaseAsset = none)
    (h3 : res.releaseTag = none) (h4 : res.tag = none)
    (h5 : res.latest = some t) :
    dispatchResolution id (some r) = .ok (.latest r.path t) := by
  simp [dispatchResolution, h1, h2, h3, h4, h5]

theorem dispatch_matchedLatest (id : String) (r : Resolved) (res : Resolution)
    (t : String) (h1 : r.resolution = some res) (h2 : res.releaseAsset = none)
    (h3 : res.releaseTag = none) (h4 : res.tag = none) (h5 : res.latest = none)
    (h6 : res.matchedLatest = some t) :
    dispatchResolution id (some r) = .ok (.matchedLatest r.path t) := by
  simp [dispatchResolution, h1, h2, h3, h4, h5, h6]

theorem dispatch_matched (id : String) (r : Resolved) (res : Resolution)
    (t : String) (h1 : r.resolution = some res) (h2 : res.releaseAsset = none)
    (h3 : res.releaseTag = none) (h4 : res.tag = none) (h5 : res.latest = none)
    (h6 : res.matchedLatest = none) (h7 : res.matched = some t) :
    dispatchResolution id (some r) = .ok (.matched r.path t) := by
  simp [dispatchResolution, h1, h2, h3, h4, h5, h6, h7]

theorem dispatch_unresolved (id : String) (ro : Option Resolved)
    (h : ro = none ∨ ∃ r, ro = some r ∧
      (r.resolution = none ∨ ∃ res, r.resolution = some res ∧
        res.releaseAsset = none ∧ res.releaseTag = none ∧ res.tag = none ∧
        res.latest = none ∧ res.matchedLatest = none ∧ res.matched = none)) :
    dispatchResolution id ro = .error (id ++ ": failed to resolve") := by
  rcases h with h | ⟨r, rfl, h | ⟨res, h1, h2, h3, h4, h5, h6, h7⟩⟩
  · subst h; rfl
  · simp [dispatchResolution, h]
  · simp [dispatchResolution, h1, h2, h3, h4, h5, h6, h7]

theorem processPackage_force (cfg : RunConfig) (s : Stat) (p : PkgInput)
    (ro : Option Resolved) (hF : cfg.force = true)
    (hro : p.resolveOutcome = .ok ro) :
    processPackage cfg s p =
      dispatchStage cfg p (statAfterRes cfg s p ro) (ctxAfterRes cfg s p ro) ro := by
  unfold processPackage
  rw [hro]
  dsimp only
  rw [if_neg (by simp [hF]), if_neg (by simp [hF]), if_neg (by simp [hF])]

theorem dispatchStage_ok (cfg : RunConfig) (p : PkgInput) (s3 : Stat)
    (ctx2 : PublishContext) (ro : Option Resolved) (choice : DispatchChoice)
    (hd : dispatchResolution p.id ro = .ok choice) :
    dispatchStage cfg p s3 ctx2 ro
      = execStage cfg p s3 (applyDispatch ctx2 choice) choice := by
  unfold dispatchStage
  rw [hd]

theorem execStage_rejected (cfg : RunConfig) (p : PkgInput) (s3 : Stat)
    (ctx3 : PublishContext) (choice : DispatchChoice) (msg : String)
    (hSB : cfg.skipBuild = false)
    (hbr : (runBounded p.execEvent (timeoutDelayOf p.timeout)).rejected = some msg) :
    execStage cfg p s3 ctx3 choice =
      { stat := { s3 with failed := s3.failed ++ [p.id] }
        outcome := .errored msg, execRan := true
        logs := [.info (dispatchLogMsg p.id ctx3.msVersion.isSome choice),
                 .failCtx p.id ctx3 msg] } := by
  unfold execStage
  rw [if_neg (by simp [hSB]), hbr]

theorem runBounded_deadline (d : Int) :
    runBounded UnitEvent.deadline d =
      { rejected := some ("timeout after " ++ toString d ++ " mins")
        killSignal := some "SIGKILL", timerArmedAfter := false
        delayMs := d * 60 * 1000 } := rfl

theorem timeoutMsg_ne_exitMsg (x y : String) :
    ("timeout after " ++ x ++ " mins") ≠ ("failed with exit status: " ++ y) := by
  intro h
  have h2 := congrArg String.data h
  simp only [String.data_append] at h2
  have h3 := congrArg List.head? h2
  simp at h3

theorem stage1_upToDate_self (cfg : RunConfig) (s : Stat) (p : PkgInput) :
    (stage1 cfg s p).1.upToDate p.id =
      (if classify (updateStatCtx (msContextOf p.msResult) p.ovsxResult).msVersion
            (updateStatCtx (msContextOf p.msResult) p.ovsxResult).ovsxVersion
          = Classification.upToDate
       then some (mkExtStat (updateStatCtx (msContextOf p.msResult) p.ovsxResult))
       else none) :=
  (updateStatFn_buckets_self cfg.monthAgoTime p.id (msContextOf p.msResult)
    p.ovsxResult (statAfterMsPub s p)).1

theorem stage1_outdated_self (cfg : RunConfig) (s : Stat) (p : PkgInput) :
    (stage1 cfg s p).1.outdated p.id =
      (if classify (updateStatCtx (msContextOf p.msResult) p.ovsxResult).msVersion
            (updateStatCtx (msContextOf p.msResult) p.ovsxResult).ovsxVersion
          = Classification.outdated
       then some (mkExtStat (updateStatCtx (msContextOf p.msResult) p.ovsxResult))
       else none) :=
  (updateStatFn_buckets_self cfg.monthAgoTime p.id (msContextOf p.msResult)
    p.ovsxResult (statAfterMsPub s p)).2.1

theorem stage1_unstable_self (cfg : RunConfig) (s : Stat) (p : PkgInput) :
    (stage1 cfg s p).1.unstable p.id =
      (if classify (updateStatCtx (msContextOf p.msResult) p.ovsxResult).msVersion
            (updateStatCtx (msContextOf p.msResult) p.ovsxResult).ovsxVersion
          = Classification.unstable
       then some (mkExtStat (updateStatCtx (msContextOf p.msResult) p.ovsxResult))
       else none) :=
  (updateStatFn_buckets_self cfg.monthAgoTime p.id (msContextOf p.msResult)
    p.ovsxResult (statAfterMsPub s p)).2.2.1

theorem processPackage_skip_upToDate (cfg : RunConfig) (s : Stat)
    (p : PkgInput) (ro : Option Resolved) (hF : cfg.force = false)
    (hro : p.resolveOutcome = .ok ro)
    (hcl : classify (updateStatCtx (msContextOf p.msResult) p.ovsxResult).msVersion
        (updateStatCtx (msContextOf p.msResult) p.ovsxResult).ovsxVersion
        = Classification.upToDate) :
    (processPackage cfg s p).outcome = .skippedUpToDate ∧
    (processPackage cfg s p).execRan = false := by
  have hb := stage1_upToDate_self cfg s p
  rw [hcl, if_pos rfl] at hb
  have hA : cfg.force = false ∧
      ((statAfterRes cfg s p ro).upToDate p.id).isSome = true := by
    refine ⟨hF, ?_⟩
    show ((stage1 cfg s p).1.upToDate p.id).isSome = true
    rw [hb]
    rfl
  unfold processPackage
  rw [hro]
  dsimp only
  rw [if_pos hA]
  exact ⟨rfl, rfl⟩

theorem processPackage_skip_unstable (cfg : RunConfig) (s : Stat)
    (p : PkgInput) (ro : Option Resolved) (hF : cfg.force = false)
    (hro : p.resolveOutcome = .ok ro)
    (hcl : classify (updateStatCtx (msContextOf p.msResult) p.ovsxResult).msVersion
        (updateStatCtx (msContextOf p.msResult) p.ovsxResult).ovsxVersion
        = Classification.unstable) :
    (processPackage cfg s p).outcome = .skippedUnstable ∧
    (processPackage cfg s p).execRan = false := by
  have hbU := stage1_upToDate_self cfg s p
  rw [hcl] at hbU
  simp only [reduceCtorEq, if_false] at hbU
  have hbS := stage1_unstable_self cfg s p
  rw [hcl, if_pos rfl] at hbS
  have hA : ¬(cfg.force = false ∧
      ((statAfterRes cfg s p ro).upToDate p.id).isSome = true) := by
    rintro ⟨-, hx⟩
    have : ((stage1 cfg s p).1.upToDate p.id).isSome = true := hx
    rw [hbU] at this
    simp at this
  have hB : cfg.force = false ∧
      ((statAfterRes cfg s p ro).unstable p.id).isSome = true := by
    refine ⟨hF, ?_⟩
    show ((stage1 cfg s p).1.unstable p.id).isSome = true
    rw [hbS]
    rfl
  unfold processPackage
  rw [hro]
  dsimp only
  rw [if_neg hA, if_pos hB]
  exact ⟨rfl, rfl⟩

theorem processPackage_skip_latest (cfg : RunConfig) (s : Stat)
    (p : PkgInput) (ro : Option Resolved) (hF : cfg.force = false)
    (hro : p.resolveOutcome = .ok ro)
    (hcl : classify (updateStatCtx (msContextOf p.msResult) p.ovsxResult).msVersion
        (updateStatCtx (msContextOf p.msResult) p.ovsxResult).ovsxVersion
        = Classification.outdated)
    (hlat : (resField ro (fun r => r.latest)).isSome = true)
    (hver : (ctxAfterRes cfg s p ro).version = (ctxAfterRes cfg s p ro).ovsxVersion) :
    (processPackage cfg s p).outcome = .skippedLatest ∧
    (processPackage cfg s p).execRan = false ∧
    (processPackage cfg s p).stat.upToDate p.id
      = some (mkExtStat (updateStatCtx (msContextOf p.msResult) p.ovsxResult)) ∧
    (processPackage cfg s p).stat.outdated p.id = none := by
  have hbU := stage1_upToDate_self cfg s p
  rw [hcl] at hbU
  simp only [reduceCtorEq, if_false] at hbU
  have hbS := stage1_unstable_self cfg s p
  rw [hcl] at hbS
  simp only [reduceCtorEq, if_false] at hbS
  have hbO := stage1_outdated_self cfg s p
  rw [hcl, if_pos rfl] at hbO
  have hA : ¬(cfg.force = false ∧
      ((statAfterRes cfg s p ro).upToDate p.id).isSome = true) := by
    rintro ⟨-, hx⟩
    have : ((stage1 cfg s p).1.upToDate p.id).isSome = true := hx
    rw [hbU] at this
    simp at this
  have hB : ¬(cfg.force = false ∧
      ((statAfterRes cfg s p ro).unstable p.id).isSome = true) := by
    rintro ⟨-, hx⟩
    have : ((stage1 cfg s p).1.unstable p.id).isSome = true := hx
    rw [hbS] at this
    simp at this
  have hC : cfg.force = false ∧ (resField ro (fun r => r.latest)).isSome = true ∧
      (ctxAfterRes cfg s p ro).version = (ctxAfterRes cfg s p ro).ovsxVersion :=
    ⟨hF, hlat, hver⟩
  unfold processPackage
  rw [hro]
  dsimp only
  rw [if_neg hA, if_neg hB, if_pos hC]
  refine ⟨rfl, rfl, ?_, ?_⟩
  · show upd (statAfterRes cfg s p ro).upToDate p.id
      ((statAfterRes cfg s p ro).outdated p.id) p.id = _
    rw [upd_self]
    exact hbO
  · show upd (statAfterRes cfg s p ro).outdated p.id none p.id = none
    rw [upd_self]

theorem execStage_execRan (cfg : RunConfig) (p : PkgInput) (s3 : Stat)
    (ctx3 : PublishContext) (choice : DispatchChoice)
    (hSB : cfg.skipBuild = false) :
    (execStage cfg p s3 ctx3 choice).execRan = true := by
  unfold execStage
  rw [if_neg (by simp [hSB])]
  cases hbr : (runBounded p.execEvent (timeoutDelayOf p.timeout)).rejected <;> rfl

theorem processPackage_force_exec (cfg : RunConfig) (s : Stat) (p : PkgInput)
    (ro : Option Resolved) (choice : DispatchChoice) (hF : cfg.force = true)
    (hSB : cfg.skipBuild = false) (hro : p.resolveOutcome = .ok ro)
    (hd : dispatchResolution p.id ro = .ok choice) :
    (processPackage cfg s p).execRan = true := by
  rw [processPackage_force cfg s p ro hF hro,
    dispatchStage_ok cfg p _ _ ro choice hd]
  exact execStage_execRan cfg p _ _ choice hSB

/-! ## The claims -/

/-- Claim C1: the classifier is a pure total function of the optional source
and mirror versions. Source absent → `notInMS` (NotInSource) regardless of
the mirror state; source present and mirror absent → `notInOpen`
(NotInMirror); both present → `upToDate` when the versions are semver-equal,
`outdated` when source is greater, `unstable` when source is smaller. -/
theorem C1_classifier_cases :
    (∀ mv, classify none mv = Classification.notInMS) ∧
    (∀ sv, classify (some sv) none = Classification.notInOpen) ∧
    (∀ sv mv, semverCompare sv mv = Ordering.eq →
      classify (some sv) (some mv) = Classification.upToDate) ∧
    (∀ sv mv, semverCompare sv mv = Ordering.gt →
      classify (some sv) (some mv) = Classification.outdated) ∧
    (∀ sv mv, semverCompare sv mv = Ordering.lt →
      classify (some sv) (some mv) = Classification.unstable) := by
  refine ⟨fun _ => rfl, fun _ => rfl, ?_, ?_, ?_⟩ <;>
    · intro sv mv h
      simp [classify, h]

/-- Claim C1, witness: the classifier at the spec's example inputs; the
up-to-date instance uses two versions that are semver-equal but textually
different (distinct build metadata), showing equality is semantic, not
textual. -/
theorem C1_classifier_cases_witness :
    classify none (some ⟨1, 2, 0, [], ""⟩) = Classification.notInMS ∧
    semverCompare ⟨2, 0, 0, [], ""⟩ ⟨2, 0, 0, [], "build5"⟩ = Ordering.eq ∧
    classify (some ⟨2, 0, 0, [], ""⟩) (some ⟨2, 0, 0, [], "build5"⟩)
      = Classification.upToDate ∧
    semverCompare ⟨2, 1, 0, [], ""⟩ ⟨2, 0, 0, [], ""⟩ = Ordering.gt ∧
    classify (some ⟨2, 1, 0, [], ""⟩) (some ⟨2, 0, 0, [], ""⟩)
      = Classification.outdated ∧
    semverCompare ⟨1, 9, 0, [], ""⟩ ⟨2, 0, 0, [], ""⟩ = Ordering.lt ∧
    classify (some ⟨1, 9, 0, [], ""⟩) (some ⟨2, 0, 0, [], ""⟩)
      = Classification.unstable :=
  ⟨C1_classifier_cases.1 _, by decide,
   C1_classifier_cases.2.2.1 _ _ (by decide), by decide,
   C1_classifier_cases.2.2.2.1 _ _ (by decide), by decide,
   C1_classifier_cases.2.2.2.2 _ _ (by decide)⟩

/-- Claim C2: the claim says the deadline timer is always disarmed once the
child finishes, for zero and non-zero exits alike. In the code the
`clearTimeout` sits after the `await`, so it only runs when the promise
resolved (exit status 0); a non-zero exit rejects the promise, the `await`
throws to the catch block, and the timer stays armed. This theorem evaluates
the bounded step at the failing input (exit status 1) and at the two inputs
where the claim does hold. -/
theorem C2_timer_armed_after_nonzero_exit :
    (runBounded (UnitEvent.exited 1) 5).timerArmedAfter = true ∧
    (runBounded (UnitEvent.exited 0) 5).timerArmedAfter = false ∧
    (runBounded UnitEvent.deadline 5).timerArmedAfter = false :=
  ⟨rfl, rfl, rfl⟩

/-- Claim C3: the single-classification invariant. `statClear` empties every
classification bucket for the id before `updateStat` re-inserts; both
`updateStat` and the skip-time relabelling preserve the invariant for every
id, the per-package step preserves it, and every state reached by a batch
from the empty stat satisfies it. -/
theorem C3_single_classification :
    (∀ s id, singleClass s id → classCount (statClear s id) id = 0) ∧
    (∀ m id ctx o s, (∀ q, singleClass s q) →
      ∀ q, singleClass (updateStatFn m id ctx o s).1 q) ∧
    (∀ s id, (∀ q, singleClass s q) → ∀ q, singleClass (relabelLatest s id) q) ∧
    (∀ cfg s p, (∀ q, singleClass s q) →
      ∀ q, singleClass (processPackage cfg s p).stat q) ∧
    (∀ cfg pkgs q, singleClass (runBatch cfg pkgs) q) := by
  refine ⟨classCount_clear_self, ?_, ?_, processPackage_singleClass,
    fun cfg pkgs q => runBatch_singleClass cfg pkgs q⟩
  · intro m id ctx o s h q
    by_cases hq : q = id
    · subst hq
      exact updateStatFn_singleClass_self _ _ _ _ _ (h _)
    · unfold singleClass
      rw [updateStatFn_classCount_other _ _ _ _ _ hq]
      exact h q
  · intro s id h q
    by_cases hq : q = id
    · subst hq
      exact relabel_singleClass_self _ _ (h _)
    · unfold singleClass
      rw [relabel_classCount_other _ hq]
      exact h q

/-- Claim C3, witness: the invariant checked concretely after an
`updateStat` on the empty stat and after a full batch containing the
relabelling skip path. -/
theorem C3_single_classification_witness :
    singleClass (updateStatFn 0 "a.b" {} none statEmpty).1 "a.b" ∧
    singleClass (runBatch exCfg [exPkgLatest]) "a.b" :=
  ⟨C3_single_classification.2.1 0 "a.b" {} none statEmpty
      statEmpty_singleClass "a.b",
   C3_single_classification.2.2.2.2 exCfg [exPkgLatest] "a.b"⟩

/-- Claim C4, counterexample: when both versions are absent the classifier
yields `notInMS` (NotInSource), not `notInOpen` (NotInMirror) as the claim
states — the source-absence check fires first. -/
theorem C4_counterexample :
    classify none none = Classification.notInMS ∧
    Classification.notInMS ≠ Classification.notInOpen :=
  ⟨rfl, by decide⟩

/-- Claim C4, amended: when the mirror version is absent and the source
version is present the classifier yields `notInOpen` (NotInMirror); when
both are absent the source-absence rule wins and it yields `notInMS`
(NotInSource). -/
theorem C4_amended :
    (∀ sv, classify (some sv) none = Classification.notInOpen) ∧
    classify none none = Classification.notInMS :=
  ⟨fun _ => rfl, rfl⟩

/-- Claim C5: the resolution dispatch consumes the descriptor fields in the
strict priority order `releaseAsset` > `releaseTag` > `tag` > `latest` >
`matchedLatest` > `matched`, first match wins (in particular a release asset
beats a plain tag whenever both are present, since the later branches only
run when `releaseAsset` is `none`); when the descriptor or result is absent
or no field is set, the `failed to resolve` error is thrown, and on the
proceed path that error is caught for the package alone: its id is pushed
onto `failed` and the step returns normally instead of aborting. -/
theorem C5_resolution_priority :
    (∀ id r res a, r.resolution = some res → res.releaseAsset = some a →
      dispatchResolution id (some r) = .ok (.releaseAsset r.path a)) ∧
    (∀ id r res t, r.resolution = some res → res.releaseAsset = none →
      res.releaseTag = some t →
      dispatchResolution id (some r) = .ok (.releaseTag r.path t)) ∧
    (∀ id r res t, r.resolution = some res → res.releaseAsset = none →
      res.releaseTag = none → res.tag = some t →
      dispatchResolution id (some r) = .ok (.tag r.path t)) ∧
    (∀ id r res t, r.resolution = some res → res.releaseAsset = none →
      res.releaseTag = none → res.tag = none → res.latest = some t →
      dispatchResolution id (some r) = .ok (.latest r.path t)) ∧
    (∀ id r res t, r.resolution = some res → res.releaseAsset = none →
      res.releaseTag = none → res.tag = none → res.latest = none →
      res.matchedLatest = some t →
      dispatchResolution id (some r) = .ok (.matchedLatest r.path t)) ∧
    (∀ id r res t, r.resolution = some res → res.releaseAsset = none →
      res.releaseTag = none → res.tag = none → res.latest = none →
      res.matchedLatest = none → res.matched = some t →
      dispatchResolution id (some r) = .ok (.matched r.path t)) ∧
    (∀ id ro, (ro = none ∨ ∃ r, ro = some r ∧
        (r.resolution = none ∨ ∃ res, r.resolution = some res ∧
          res.releaseAsset = none ∧ res.releaseTag = none ∧ res.tag = none ∧
          res.latest = none ∧ res.matchedLatest = none ∧ res.matched = none)) →
      dispatchResolution id ro = .error (id ++ ": failed to resolve")) ∧
    (∀ cfg s p ro, cfg.force = true → p.resolveOutcome = .ok ro →
      dispatchResolution p.id ro = .error (p.id ++ ": failed to resolve") →
      (processPackage cfg s p).outcome
          = .errored (p.id ++ ": failed to resolve") ∧
      (processPackage cfg s p).stat.failed = s.failed ++ [p.id]) := by
  refine ⟨dispatch_releaseAsset, dispatch_releaseTag, dispatch_tag,
    dispatch_latest, dispatch_matchedLatest, dispatch_matched,
    dispatch_unresolved, ?_⟩
  intro cfg s p ro hF hro hd
  rw [processPackage_force cfg s p ro hF hro]
  unfold dispatchStage
  rw [hd]
  refine ⟨rfl, ?_⟩
  show (statAfterRes cfg s p ro).failed ++ [p.id] = s.failed ++ [p.id]
  rw [statAfterRes_failed]

/-- Claim C5, witness: with both a release asset and a plain tag present the
asset wins; with no descriptor at all the package fails to resolve, is
recorded in `failed`, and processing returns normally. -/
theorem C5_resolution_priority_witness :
    dispatchResolution "a.b" (some exResBoth)
      = .ok (.releaseAsset "/tmp/download/ext.vsix" "ext.vsix") ∧
    (processPackage exCfgForce statEmpty exPkgUnresolved).outcome
      = .errored "a.b: failed to resolve" ∧
    (processPackage exCfgForce statEmpty exPkgUnresolved).stat.failed
      = [] ++ ["a.b"] :=
  ⟨C5_resolution_priority.1 "a.b" exResBoth
      { releaseAsset := some "ext.vsix", tag := some "v2.0.0" } "ext.vsix" rfl rfl,
   (C5_resolution_priority.2.2.2.2.2.2.2 exCfgForce statEmpty exPkgUnresolved
      none rfl rfl rfl).1,
   (C5_resolution_priority.2.2.2.2.2.2.2 exCfgForce statEmpty exPkgUnresolved
      none rfl rfl rfl).2⟩

/-- Claim C6: any error during a package's processing is caught at the loop
boundary: the id is appended to `failed`, the error is logged together with
the package context, the other ids' classification entries are untouched,
and the batch continues — the loop over a concatenation is the loop over
the first part followed by the loop over the rest, so a failing package
never prevents later packages from being processed or the final report from
being produced. -/
theorem C6_per_package_error_isolation :
    (∀ cfg s p msg, (processPackage cfg s p).outcome = .errored msg →
      (processPackage cfg s p).stat.failed = s.failed ++ [p.id] ∧
      ∃ c, LogEntry.failCtx p.id c msg ∈ (processPackage cfg s p).logs) ∧
    (∀ cfg s p, (∀ msg, (processPackage cfg s p).outcome ≠ .errored msg) →
      (processPackage cfg s p).stat.failed = s.failed) ∧
    (∀ cfg s p q, q ≠ p.id →
      (processPackage cfg s p).stat.upToDate q = s.upToDate q ∧
      (processPackage cfg s p).stat.outdated q = s.outdated q ∧
      (processPackage cfg s p).stat.unstable q = s.unstable q ∧
      (processPackage cfg s p).stat.notInOpen q = s.notInOpen q ∧
      List.count q (processPackage cfg s p).stat.notInMS
        = List.count q s.notInMS) ∧
    (∀ cfg s ps qs, runBatchFrom cfg s (ps ++ qs)
      = runBatchFrom cfg (runBatchFrom cfg s ps) qs) :=
  ⟨processPackage_errored,
   processPackage_not_errored,
   fun cfg s p q hq => processPackage_other cfg s p hq,
   runBatchFrom_append⟩

/-- Claim C6, witness: a package that fails to resolve is recorded in
`failed` while a neighbouring id's (empty) classification entries are
untouched. -/
theorem C6_per_package_error_isolation_witness :
    (processPackage exCfg statEmpty exPkgUnresolved).outcome
      = .errored "a.b: failed to resolve" ∧
    (processPackage exCfg statEmpty exPkgUnresolved).stat.failed
      = [] ++ ["a.b"] ∧
    (processPackage exCfg statEmpty exPkgUnresolved).stat.upToDate "c.d"
      = statEmpty.upToDate "c.d" :=
  ⟨by decide,
   (C6_per_package_error_isolation.1 exCfg statEmpty exPkgUnresolved
      "a.b: failed to resolve" (by decide)).1,
   (C6_per_package_error_isolation.2.2.1 exCfg statEmpty exPkgUnresolved "c.d"
      (by decide)).1⟩

/-- Claim C7: when the deadline fires first the handler kills the child with
an immediate `SIGKILL` (no graceful signal), the timer was armed with the
configured minutes times 60000 ms, and the rejection message is the distinct
`timeout after N mins` string, never equal to an ordinary exit-status
message; on the proceed path the timeout is accounted exactly like an
ordinary execution failure — the id is pushed onto `failed`, the message is
logged with the package context, and the resulting stat is identical to the
one a non-zero exit would have produced. -/
theorem C7_timeout_sigkill_accounting :
    (∀ d, runBounded UnitEvent.deadline d =
      { rejected := some ("timeout after " ++ toString d ++ " mins")
        killSignal := some "SIGKILL", timerArmedAfter := false
        delayMs := d * 60 * 1000 }) ∧
    (∀ x y, ("timeout after " ++ x ++ " mins")
      ≠ ("failed with exit status: " ++ y)) ∧
    (∀ cfg s p ro choice, cfg.force = true → cfg.skipBuild = false →
      p.resolveOutcome = .ok ro → dispatchResolution p.id ro = .ok choice →
      p.execEvent = UnitEvent.deadline →
      (processPackage cfg s p).outcome = .errored
        ("timeout after " ++ toString (timeoutDelayOf p.timeout) ++ " mins") ∧
      (processPackage cfg s p).stat.failed = s.failed ++ [p.id] ∧
      (∃ c, LogEntry.failCtx p.id c
          ("timeout after " ++ toString (timeoutDelayOf p.timeout) ++ " mins")
        ∈ (processPackage cfg s p).logs) ∧
      (processPackage cfg s p).stat
        = (processPackage cfg s { p with execEvent := UnitEvent.exited 1 }).stat) := by
  refine ⟨fun d => rfl, timeoutMsg_ne_exitMsg, ?_⟩
  intro cfg s p ro choice hF hSB hro hd hev
  have hbr : (runBounded p.execEvent (timeoutDelayOf p.timeout)).rejected
      = some ("timeout after " ++ toString (timeoutDelayOf p.timeout) ++ " mins") := by
    rw [hev]; rfl
  rw [processPackage_force cfg s p ro hF hro,
    dispatchStage_ok cfg p _ _ ro choice hd,
    execStage_rejected cfg p _ _ choice _ hSB hbr]
  refine ⟨rfl, ?_, ⟨applyDispatch (ctxAfterRes cfg s p ro) choice, by simp⟩, ?_⟩
  · show (statAfterRes cfg s p ro).failed ++ [p.id] = s.failed ++ [p.id]
    rw [statAfterRes_failed]
  · have hro' : ({ p with execEvent := UnitEvent.exited 1 } : PkgInput).resolveOutcome
        = .ok ro := hro
    have hd' : dispatchResolution
        ({ p with execEvent := UnitEvent.exited 1 } : PkgInput).id ro
        = .ok choice := hd
    have hbr' : (runBounded
        ({ p with execEvent := UnitEvent.exited 1 } : PkgInput).execEvent
        (timeoutDelayOf ({ p with execEvent := UnitEvent.exited 1 } : PkgInput).timeout)).rejected
        = some ("failed with exit status: " ++ toString 1) := rfl
    rw [processPackage_force cfg s _ ro hF hro',
      dispatchStage_ok cfg _ _ _ ro choice hd',
      execStage_rejected cfg _ _ _ choice _ hSB hbr']
    rfl

/-- Claim C7, witness: a package whose publish child is still running after
its 7-minute deadline. -/
theorem C7_timeout_sigkill_accounting_witness :
    runBounded UnitEvent.deadline 7 =
      { rejected := some "timeout after 7 mins", killSignal := some "SIGKILL"
        timerArmedAfter := false, delayMs := 420000 } ∧
    ("timeout after 7 mins" : String) ≠ "failed with exit status: 1" ∧
    (processPackage exCfgForce statEmpty exPkgTimeout).outcome
      = .errored "timeout after 7 mins" ∧
    (processPackage exCfgForce statEmpty exPkgTimeout).stat.failed
      = [] ++ ["a.b"] := by
  refine ⟨by have := C7_timeout_sigkill_accounting.1 7; simpa using this,
    ?_, ?_, ?_⟩
  · have := C7_timeout_sigkill_accounting.2.1 "7" "1"
    simpa using this
  · exact (C7_timeout_sigkill_accounting.2.2 exCfgForce statEmpty exPkgTimeout
      (some ⟨some { tag := some "v2.0.0" }, some exV2, "/tmp/repository"⟩)
      (.tag "/tmp/repository" "v2.0.0") rfl rfl rfl rfl rfl).1
  · exact (C7_timeout_sigkill_accounting.2.2 exCfgForce statEmpty exPkgTimeout
      (some ⟨some { tag := some "v2.0.0" }, some exV2, "/tmp/repository"⟩)
      (.tag "/tmp/repository" "v2.0.0") rfl rfl rfl rfl rfl).2.1

/-- Claim C8: without the force flag, a package classified `upToDate` is
skipped before the publish child is spawned, a package classified `unstable`
likewise, and a package whose resolution is the latest commit with resolved
version equal to the mirror's current version is skipped and its report
entry moved from `outdated` to `upToDate`; with `FORCE='true'` the three
skip rules are bypassed and (when the dispatch succeeds and builds are not
skipped) the publish child is spawned. -/
theorem C8_skip_rules :
    (∀ cfg s p ro, cfg.force = false → p.resolveOutcome = .ok ro →
      classify (updateStatCtx (msContextOf p.msResult) p.ovsxResult).msVersion
        (updateStatCtx (msContextOf p.msResult) p.ovsxResult).ovsxVersion
        = Classification.upToDate →
      (processPackage cfg s p).outcome = .skippedUpToDate ∧
      (processPackage cfg s p).execRan = false) ∧
    (∀ cfg s p ro, cfg.force = false → p.resolveOutcome = .ok ro →
      classify (updateStatCtx (msContextOf p.msResult) p.ovsxResult).msVersion
        (updateStatCtx (msContextOf p.msResult) p.ovsxResult).ovsxVersion
        = Classification.unstable →
      (processPackage cfg s p).outcome = .skippedUnstable ∧
      (processPackage cfg s p).execRan = false) ∧
    (∀ cfg s p ro, cfg.force = false → p.resolveOutcome = .ok ro →
      classify (updateStatCtx (msContextOf p.msResult) p.ovsxResult).msVersion
        (updateStatCtx (msContextOf p.msResult) p.ovsxResult).ovsxVersion
        = Classification.outdated →
      (resField ro (fun r => r.latest)).isSome = true →
      (ctxAfterRes cfg s p ro).version = (ctxAfterRes cfg s p ro).ovsxVersion →
      (processPackage cfg s p).outcome = .skippedLatest ∧
      (processPackage cfg s p).execRan = false ∧
      (processPackage cfg s p).stat.upToDate p.id
        = some (mkExtStat (updateStatCtx (msContextOf p.msResult) p.ovsxResult)) ∧
      (processPackage cfg s p).stat.outdated p.id = none) ∧
    (∀ cfg s p ro choice, cfg.force = true → cfg.skipBuild = false →
      p.resolveOutcome = .ok ro → dispatchResolution p.id ro = .ok choice →
      (processPackage cfg s p).execRan = true) :=
  ⟨processPackage_skip_upToDate, processPackage_skip_unstable,
   processPackage_skip_latest, processPackage_force_exec⟩

/-- Claim C8, witness: the three skip rules on concrete packages, and the
same up-to-date package proceeding to execution under the force flag. -/
theorem C8_skip_rules_witness :
    ((processPackage exCfg statEmpty exPkgUpToDate).outcome
        = .skippedUpToDate ∧
      (processPackage exCfg statEmpty exPkgUpToDate).execRan = false) ∧
    ((processPackage exCfg statEmpty exPkgUnstable).outcome
        = .skippedUnstable ∧
      (processPackage exCfg statEmpty exPkgUnstable).execRan = false) ∧
    ((processPackage exCfg statEmpty exPkgLatest).outcome = .skippedLatest ∧
      (processPackage exCfg statEmpty exPkgLatest).execRan = false ∧
      (processPackage exCfg statEmpty exPkgLatest).stat.upToDate "a.b"
        = some (mkExtStat (updateStatCtx (msContextOf exPkgLatest.msResult)
            exPkgLatest.ovsxResult)) ∧
      (processPackage exCfg statEmpty exPkgLatest).stat.outdated "a.b" = none) ∧
    (processPackage exCfgForce statEmpty exPkgUpToDate).execRan = true :=
  ⟨C8_skip_rules.1 exCfg statEmpty exPkgUpToDate
      (some ⟨some { tag := some "v1.0.0" }, some exV1, "/tmp/repository"⟩)
      rfl rfl (by decide),
   C8_skip_rules.2.1 exCfg statEmpty exPkgUnstable
      (some ⟨some { tag := some "v1.0.0" }, some exV1, "/tmp/repository"⟩)
      rfl rfl (by decide),
   C8_skip_rules.2.2.1 exCfg statEmpty exPkgLatest
      (some ⟨some { latest := some "abc1234" }, some exV1, "/tmp/repository"⟩)
      rfl rfl (by decide) rfl (by decide),
   C8_skip_rules.2.2.2 exCfgForce statEmpty exPkgUpToDate
      (some ⟨some { tag := some "v1.0.0" }, some exV1, "/tmp/repository"⟩)
      (.tag "/tmp/repository" "v1.0.0") rfl rfl rfl rfl⟩

/-- Claim C9, counterexample: run the batch at 2026-03-31T00:00Z. The code's
`monthAgo` is `setMonth(month - 1)`, i.e. February 31, which JavaScript
normalizes to March 3; a source `lastUpdated` of 2026-03-02T00:00Z
(1772409600000) is within the claim's 30-day window of the run time, yet the
`hitMiss` flag is not set because March 2 is before the normalized
calendar-month threshold. -/
theorem C9_counterexample :
    (JSDate.getTime ⟨2026, 2, 31, 0⟩ - 30 * 86400000 ≤ (1772409600000 : Int)) ∧
    (updateStatFn (runConfigOf ⟨2026, 2, 31, 0⟩ false false).monthAgoTime "a.b"
      { msVersion := some exV1, msLastUpdated := some 1772409600000 }
      none statEmpty).1.hitMiss "a.b" = none := by
  exact ⟨by decide, by decide⟩

/-- Claim C9, amended: the `hitMiss` flag is set after `updateStat` exactly
when the context has a source version and a source `lastUpdated` at or after
`monthAgo` — the run time with its (0-based) month field decremented under
JavaScript `Date` normalization, i.e. one calendar month, not a fixed 30
days. The flag is independent of the classification: its condition ignores
the mirror version, and the classification buckets ignore the `monthAgo`
threshold, so the flag coexists with whatever bucket the package is in. -/
theorem C9_hitMiss_monthAgo :
    (∀ m id ctx o s, ((updateStatFn m id ctx o s).1.hitMiss id).isSome
        = hitMissCond m (updateStatCtx ctx o)) ∧
    (∀ m ctx, hitMissCond m ctx = true ↔
      ctx.msVersion.isSome = true ∧ ∃ t, ctx.msLastUpdated = some t ∧ m ≤ t) ∧
    (∀ now f sb, (runConfigOf now f sb).monthAgoTime
        = (JSDate.setMonthSub1 now).getTime) ∧
    (∀ m ctx v, hitMissCond m ctx = hitMissCond m { ctx with ovsxVersion := v }) ∧
    (∀ m mm id ctx o s, (updateStatFn m id ctx o s).1.upToDate id
        = (updateStatFn mm id ctx o s).1.upToDate id) := by
  refine ⟨updateStatFn_hitMiss_self, ?_, fun _ _ _ => rfl, fun _ _ _ => rfl, ?_⟩
  · intro m ctx
    unfold hitMissCond
    cases hm : ctx.msLastUpdated <;> simp [hm]
  · intro m mm id ctx o s
    rw [(updateStatFn_buckets_self m id ctx o s).1,
      (updateStatFn_buckets_self mm id ctx o s).1]

/-- Claim C9, witness: a package updated at source after the calendar-month
threshold gets the flag, and simultaneously carries an `outdated`
classification entry — the flag and the classification coexist. -/
theorem C9_hitMiss_monthAgo_witness :
    ((updateStatFn 1772496000000 "a.b"
        { msVersion := some exV2, msLastUpdated := some 1772500000000 }
        (exOV exV1) statEmpty).1.hitMiss "a.b").isSome
      = hitMissCond 1772496000000
          (updateStatCtx
            { msVersion := some exV2, msLastUpdated := some 1772500000000 }
            (exOV exV1)) ∧
    hitMissCond 1772496000000
        (updateStatCtx
          { msVersion := some exV2, msLastUpdated := some 1772500000000 }
          (exOV exV1)) = true ∧
    ((updateStatFn 1772496000000 "a.b"
        { msVersion := some exV2, msLastUpdated := some 1772500000000 }
        (exOV exV1) statEmpty).1.outdated "a.b").isSome = true :=
  ⟨C9_hitMiss_monthAgo.1 1772496000000 "a.b"
      { msVersion := some exV2, msLastUpdated := some 1772500000000 }
      (exOV exV1) statEmpty,
   by decide, by decide⟩

/-- Claim C10: the two classification inputs are computed asymmetrically —
the source side takes the first (newest) version whose properties do not
mark it as a prerelease, while the mirror side takes the plain first listed
version with no prerelease filtering; consequently there are inputs where a
prerelease-marked mirror version is compared against a stable source
version. -/
theorem C10_prerelease_asymmetry :
    (∀ v, (msContextOf (some v)).msVersion
      = ((versionsOfMS v).find? (fun ver => !isPreReleaseVersion ver.properties)).map
          (fun x => x.version)) ∧
    (∀ ctx v, (updateStatCtx ctx (some v)).ovsxVersion
      = ((versionsOfOvsx v).head?).map (fun x => x.version)) ∧
    (msContextOf (some (some
        ⟨[⟨⟨2, 0, 0, [], ""⟩, 0,
            some [⟨"Microsoft.VisualStudio.Code.PreRelease", "true"⟩]⟩,
          ⟨⟨1, 5, 0, [], ""⟩, 0, none⟩], none, "somepub"⟩))).msVersion
      = some ⟨1, 5, 0, [], ""⟩ ∧
    (updateStatCtx {} (some (some (⟨[⟨⟨2, 0, 0, [], ""⟩, 0,
        some [⟨"Microsoft.VisualStudio.Code.PreRelease", "true"⟩]⟩]⟩ :
          OvsxExt)))).ovsxVersion = some ⟨2, 0, 0, [], ""⟩ ∧
    isPreReleaseVersion
      (some [⟨"Microsoft.VisualStudio.Code.PreRelease", "true"⟩]) = true ∧
    classify (some ⟨1, 5, 0, [], ""⟩) (some ⟨2, 0, 0, [], ""⟩)
      = Classification.unstable :=
  ⟨fun _ => rfl, fun _ _ => rfl, by decide, by decide, by decide, by decide⟩
